/-
Verification of the maritime multi-sensor fusion core
(`src/ingestion/fusion/*`, `src/ingestion/ingesters/ais_nmea_ingester.py`,
`src/ingestion/shared/fleet_manager.py`).

Shallow embedding conventions:
  * Python floats are modelled as `ℝ` where transcendental functions occur
    (positions, uncertainties, correlation scores) and as `ℚ` where the code
    only performs field arithmetic and comparisons (times, speeds, courses,
    dark-ship confidences), so that concrete executions can be decided.
  * `datetime` values are seconds since an arbitrary epoch (`ℚ`);
    `a - b` models `(a - b).total_seconds()`.
  * Python dicts are insertion-ordered association lists `List (String × α)`
    with `dget` / `dset` mirroring `d[k]` reads and writes.
  * `Optional[X]` is `Option X`; Python truthiness of an optional string
    (resp. number) is "`some` and non-empty" (resp. "`some` and non-zero").
  * Randomness (`random.random()`, `random.uniform`) is passed in as oracle
    parameters, one draw per decision, exactly where the source draws.
-/

import Mathlib

set_option maxHeartbeats 1000000

namespace Maritime

/-! ### Python dict operations on insertion-ordered association lists -/

/-- `d.get(k)` / `d[k]` read: first binding wins (keys are unique in Python). -/
def dget {α : Type} : List (String × α) → String → Option α
  | [], _ => none
  | (k, v) :: rest, key => if k = key then some v else dget rest key

/-- `d[k] = v` write: replace the binding if the key is present, else append. -/
def dset {α : Type} : List (String × α) → String → α → List (String × α)
  | [], key, v => [(key, v)]
  | (k, w) :: rest, key, v =>
      if k = key then (k, v) :: rest else (k, w) :: dset rest key v

/-- In-place modification of the value at a key (no-op when absent). -/
def dmodify {α : Type} : List (String × α) → String → (α → α) → List (String × α)
  | [], _, _ => []
  | (k, v) :: rest, key, f =>
      if k = key then (k, f v) :: rest else (k, v) :: dmodify rest key f

/-- Key membership, `k in d`. -/
def dmem {α : Type} (d : List (String × α)) (key : String) : Bool :=
  (d.map Prod.fst).contains key

/-- Python truthiness of an optional string (`None` and `""` are falsy). -/
def truthyStr : Option String → Bool
  | none => false
  | some s => !(s = "")

/-- Python truthiness of an optional number (`None` and `0` are falsy). -/
def truthyQ : Option ℚ → Bool
  | none => false
  | some q => !(q = 0)

/-- Python's `round` / `"{:.0f}"` formatting: round half to even. -/
def pyRound (q : ℚ) : ℤ :=
  if q - ⌊q⌋ = 1/2 then (if Even ⌊q⌋ then ⌊q⌋ else ⌊q⌋ + 1) else ⌊q + 1/2⌋

/-! ### Enumerations (`fusion/schema.py`) -/

/-- `TrackStatus` (schema.py lines 15-20). -/
inductive TrackStatus where
  | tentative
  | confirmed
  | coasting
  | dropped
  deriving DecidableEq, Repr

/-- `IdentitySource` (schema.py lines 23-27). -/
inductive IdentitySource where
  | ais
  | droneVisual
  | unknown
  deriving DecidableEq, Repr

/-- The four sensor kinds of `SENSOR_CONFIG` (config.py lines 21-50). -/
inductive SensorKind where
  | ais
  | radar
  | satellite
  | drone
  deriving DecidableEq, Repr

/-- `sensor_type.upper()`, used as the default `sensor_id`. -/
def SensorKind.upper : SensorKind → String
  | .ais => "AIS"
  | .radar => "RADAR"
  | .satellite => "SATELLITE"
  | .drone => "DRONE"

/-! ### Configuration (`fusion/config.py`) -/

/-- `SensorCharacteristics` (config.py lines 10-17); only the fields the
fusion core reads are kept. -/
structure SensorCharacteristics where
  position_error_m : ℝ
  speed_error_knots : ℚ
  has_identity : Bool
  sees_dark_ships : Bool

/-- `SENSOR_CONFIG` (config.py lines 21-50). -/
def SENSOR_CONFIG : SensorKind → SensorCharacteristics
  | .ais => ⟨10, 1/2, true, false⟩
  | .radar => ⟨500, 1, false, true⟩
  | .satellite => ⟨2000, 2, false, true⟩
  | .drone => ⟨50, 1, true, true⟩

/-- `CorrelationGates` (config.py lines 53-79). Times are seconds (`ℚ`). -/
structure CorrelationGates where
  max_distance_m : ℝ
  min_distance_m : ℝ
  sigma_multiplier : ℝ
  max_time_delta_s : ℚ
  max_speed_change_knots : ℚ
  max_course_change_deg : ℚ
  tentative_to_confirmed_updates : ℕ
  coasting_timeout_s : ℚ
  drop_timeout_s : ℚ
  min_position_uncertainty_m : ℝ
  max_position_uncertainty_m : ℝ
  new_track_cost : ℝ

/-- The dataclass defaults of `CorrelationGates`. -/
def defaultGates : CorrelationGates :=
  { max_distance_m := 10000
    min_distance_m := 500
    sigma_multiplier := 4
    max_time_delta_s := 120
    max_speed_change_knots := 15
    max_course_change_deg := 120
    tentative_to_confirmed_updates := 3
    coasting_timeout_s := 300
    drop_timeout_s := 600
    min_position_uncertainty_m := 100
    max_position_uncertainty_m := 5000
    new_track_cost := 0.85 }

/-- `DarkShipDetectionConfig` (config.py lines 82-101). -/
structure DarkShipDetectionConfig where
  ais_gap_threshold_s : ℚ
  min_radar_correlations : ℕ
  min_satellite_detections : ℕ
  min_drone_detections : ℕ
  dark_ship_high_confidence : ℚ
  dark_ship_alert_threshold : ℚ
  radar_confidence_boost : ℚ
  satellite_confidence_boost : ℚ
  drone_confidence_boost : ℚ

/-- The dataclass defaults of `DarkShipDetectionConfig`. -/
def defaultDarkConfig : DarkShipDetectionConfig :=
  { ais_gap_threshold_s := 900
    min_radar_correlations := 3
    min_satellite_detections := 1
    min_drone_detections := 1
    dark_ship_high_confidence := 4/5
    dark_ship_alert_threshold := 3/5
    radar_confidence_boost := 1/5
    satellite_confidence_boost := 1/10
    drone_confidence_boost := 3/10 }

/-! ### Track state (`fusion/schema.py`) -/

/-- `SensorContribution` (schema.py lines 30-40). -/
structure SensorContribution where
  sensor_type : SensorKind
  sensor_id : String
  last_update : ℚ
  measurement_count : ℕ
  last_position : ℝ × ℝ
  confidence : ℝ

/-- `UnifiedTrack` (schema.py lines 43-95).  The provenance dict
`sensor_contributions` is keyed by the sensor kind; `contributing_sensors`
is the separately-maintained list of schema.py line 86. -/
structure Track where
  track_id : String
  created_at : ℚ
  updated_at : ℚ
  status : TrackStatus
  latitude : ℝ
  longitude : ℝ
  speed_knots : Option ℚ
  course : Option ℚ
  heading : Option ℚ
  position_uncertainty_m : ℝ
  velocity_north_ms : ℝ
  velocity_east_ms : ℝ
  identity_source : IdentitySource
  mmsi : Option String
  ship_name : Option String
  vessel_type : Option String
  vessel_length_m : Option ℚ
  is_dark_ship : Bool
  dark_ship_confidence : ℚ
  ais_last_seen : Option ℚ
  ais_gap_seconds : Option ℚ
  sensor_contributions : List (SensorKind × SensorContribution)
  contributing_sensors : List SensorKind
  track_quality : ℕ
  correlation_confidence : ℝ
  update_count : ℕ
  flagged_for_review : Bool
  alert_reason : Option String

/-- Read of the provenance dict keyed by sensor kind. -/
def sget : List (SensorKind × SensorContribution) → SensorKind →
    Option SensorContribution
  | [], _ => none
  | (k, v) :: rest, key => if k = key then some v else sget rest key

/-- Write of the provenance dict keyed by sensor kind. -/
def sset : List (SensorKind × SensorContribution) → SensorKind →
    SensorContribution → List (SensorKind × SensorContribution)
  | [], key, v => [(key, v)]
  | (k, w) :: rest, key, v =>
      if k = key then (k, v) :: rest else (k, w) :: sset rest key v

/-! ### Parsed detections (`fusion/fusion_ingester.py`) -/

/-- The wire message of one bus stream entry, after numeric parsing: a field
is `none` when the key is missing or its string does not parse as a number
(`float(...)` raising in `_safe_float`), and `some x` when it parses to `x`. -/
structure RawMsg where
  latitude : Option ℝ := none
  longitude : Option ℝ := none
  timestamp : Option ℚ := none
  mmsi : Option String := none
  ship_name : Option String := none
  ship_type : Option String := none
  speed_knots : Option ℚ := none
  course : Option ℚ := none
  track_id : Option String := none
  station_id : Option String := none
  quality : Option ℤ := none
  detection_id : Option String := none
  vessel_length_m : Option ℚ := none
  confidence : Option ℚ := none
  is_dark_ship : Option String := none
  source_satellite : Option String := none
  object_class : Option String := none
  estimated_length_m : Option ℚ := none
  drone_id : Option String := none

/-- The common detection dict produced by `parse_detection`
(fusion_ingester.py lines 142-182).  Absent keys are `none`. -/
structure Det where
  latitude : ℝ := 0
  longitude : ℝ := 0
  timestamp : Option ℚ := none
  mmsi : Option String := none
  ship_name : Option String := none
  ship_type : Option String := none
  speed_knots : Option ℚ := none
  course : Option ℚ := none
  track_id : Option String := none
  sensor_id : Option String := none
  quality : ℤ := 0
  detection_id : Option String := none
  vessel_length_m : Option ℚ := none
  confidence : Option ℚ := none
  is_dark_ship : Bool := false
  object_class : Option String := none
  estimated_length_m : Option ℚ := none

/-- `_safe_float` (fusion_ingester.py lines 184-192): `None`/unparseable
input gives `None`, and a parsed value equal to `0` also gives `None`. -/
def safeFloat : Option ℚ → Option ℚ
  | none => none
  | some f => if f = 0 then none else some f

/-- `parse_detection` (fusion_ingester.py lines 142-182).
`float(data.get("latitude", 0))` defaults a missing coordinate to `0`. -/
def parseDetection (sensorType : SensorKind) (data : RawMsg) : Det :=
  let base : Det :=
    { latitude := data.latitude.getD 0
      longitude := data.longitude.getD 0
      timestamp := data.timestamp }
  match sensorType with
  | .ais =>
      { base with
        mmsi := data.mmsi
        ship_name := data.ship_name
        ship_type := data.ship_type
        speed_knots := safeFloat data.speed_knots
        course := safeFloat data.course
        sensor_id := some "AIS" }
  | .radar =>
      { base with
        track_id := data.track_id
        speed_knots := safeFloat data.speed_knots
        course := safeFloat data.course
        sensor_id := some (data.station_id.getD "RADAR")
        quality := data.quality.getD 0 }
  | .satellite =>
      { base with
        detection_id := data.detection_id
        vessel_length_m := safeFloat data.vessel_length_m
        confidence := safeFloat data.confidence
        is_dark_ship := data.is_dark_ship.getD "False" = "True"
        sensor_id := some (data.source_satellite.getD "SAT") }
  | .drone =>
      { base with
        detection_id := data.detection_id
        object_class := data.object_class
        estimated_length_m := safeFloat data.estimated_length_m
        confidence := safeFloat data.confidence
        sensor_id := some (data.drone_id.getD "DRONE") }

/-! ### Correlation engine (`fusion/correlation.py`) -/

/-- `math.radians`. -/
noncomputable def radiansR (x : ℝ) : ℝ := x * Real.pi / 180

/-- `_haversine_m` (correlation.py lines 214-225): great-circle distance in
meters, Earth radius 6 371 000 m. -/
noncomputable def haversineM (lat1 lon1 lat2 lon2 : ℝ) : ℝ :=
  let R : ℝ := 6371000
  let φ1 := radiansR lat1
  let φ2 := radiansR lat2
  let dlat := φ2 - φ1
  let dlon := radiansR lon2 - radiansR lon1
  let a := Real.sin (dlat/2) ^ 2 +
    Real.cos φ1 * Real.cos φ2 * Real.sin (dlon/2) ^ 2
  2 * R * Real.arcsin (Real.sqrt a)

/-- `_predict_position` (correlation.py lines 179-199): constant-velocity
extrapolation with `Δt` clamped to `max_time_delta_s`. -/
noncomputable def predictPosition (gates : CorrelationGates) (track : Track)
    (targetTime : ℚ) : ℝ × ℝ :=
  let dt : ℚ := min (targetTime - track.updated_at) gates.max_time_delta_s
  let vNorthDeg := track.velocity_north_ms * (dt : ℝ) / 111000
  let vEastDeg := track.velocity_east_ms * (dt : ℝ) /
    (111000 * max 0.1 (Real.cos (radiansR track.latitude)))
  (track.latitude + vNorthDeg, track.longitude + vEastDeg)

/-- `_calculate_gate_size` (correlation.py lines 201-212). -/
noncomputable def calculateGateSize (gates : CorrelationGates)
    (trackUncertainty sensorUncertainty : ℝ) : ℝ :=
  let combined := Real.sqrt (trackUncertainty ^ 2 + sensorUncertainty ^ 2)
  let gate := combined * gates.sigma_multiplier
  let gate := max gates.min_distance_m gate
  min gates.max_distance_m gate

/-- The speed block of `_kinematic_consistency` (correlation.py lines
239-242); `if track.speed_knots and det_speed:` is Python truthiness, so a
`None` or zero value on either side skips the term. -/
def speedPenalty (gates : CorrelationGates) (track : Track) (det : Det) : ℚ :=
  if truthyQ track.speed_knots ∧ truthyQ det.speed_knots then
    |track.speed_knots.getD 0 - det.speed_knots.getD 0| /
      gates.max_speed_change_knots
  else 0

/-- The course block of `_kinematic_consistency` (correlation.py lines
245-249), with wrap-around handling. -/
def coursePenalty (gates : CorrelationGates) (track : Track) (det : Det) : ℚ :=
  if truthyQ track.course ∧ truthyQ det.course then
    let diff := |track.course.getD 0 - det.course.getD 0|
    min diff (360 - diff) / gates.max_course_change_deg
  else 0

/-- `_kinematic_consistency` (correlation.py lines 227-251): `0` for a
perfect match, larger for worse. -/
def kinematicConsistency (gates : CorrelationGates) (track : Track)
    (det : Det) : ℚ :=
  speedPenalty gates track det + coursePenalty gates track det

open Classical in
/-- `correlate_detection` (correlation.py lines 27-94).  The fold keeps the
first candidate attaining the minimal score, as the strict `<` against a
`float("inf")` start does in the source. -/
noncomputable def correlateDetection (gates : CorrelationGates) (det : Det)
    (sensorType : SensorKind) (tracks : List (String × Track))
    (timestamp : ℚ) : Option String × ℝ :=
  if tracks = [] then (none, 0)
  else
    let sensorChar := SENSOR_CONFIG sensorType
    let candidates := tracks.filterMap fun (p : String × Track) =>
      let predicted := predictPosition gates p.2 timestamp
      let distanceM :=
        haversineM det.latitude det.longitude predicted.1 predicted.2
      let gateSize := calculateGateSize gates p.2.position_uncertainty_m
        sensorChar.position_error_m
      if distanceM < gateSize then some (p.1, p.2, distanceM) else none
    match candidates with
    | [] => (none, 0)
    | c :: cs =>
      let score : String × Track × ℝ → ℝ := fun q =>
        let combinedUncertainty := Real.sqrt
          (q.2.1.position_uncertainty_m ^ 2 + sensorChar.position_error_m ^ 2)
        q.2.2 / combinedUncertainty + (kinematicConsistency gates q.2.1 det : ℝ)
      let best := cs.foldl
        (fun (b : String × ℝ) q =>
          if score q < b.2 then (q.1, score q) else b)
        (c.1, score c)
      (some best.1, max 0 (min 1 (1 - best.2 / 10)))

/-- One entry of a correlation result list: `(detection, sensor_type,
confidence)`. -/
abbrev Assignment := Det × SensorKind × ℝ

/-- The result dict of `batch_correlate`: `track_id → [(det, sensor,
confidence)]` with the `"NEW"` bucket. -/
abbrev CorrelationResults := List (String × List Assignment)

/-- `results[track_id].append(a)`, creating the empty list first when the
key is absent (correlation.py lines 128-130 and 173-175). -/
def rappend (rs : CorrelationResults) (key : String) (a : Assignment) :
    CorrelationResults :=
  if dmem rs key then
    rs.map fun p => if p.1 = key then (p.1, p.2 ++ [a]) else p
  else rs ++ [(key, [a])]

/-- The `mmsi → track_id` map of phase 1 (correlation.py lines 117-120),
built over the insertion-ordered track dict; a later track with the same
mmsi overwrites an earlier one, as Python dict assignment does. -/
def mmsiToTrack (tracks : List (String × Track)) : List (String × String) :=
  tracks.foldl
    (fun m (p : String × Track) =>
      if truthyStr p.2.mmsi then dset m (p.2.mmsi.getD "") p.1 else m)
    []

/-- One iteration of the phase-1 loop of `batch_correlate` (correlation.py
lines 123-132): a detection whose (truthy) mmsi is bound to a track is
assigned there with confidence 1, any other detection is appended to
`remaining_detections`. -/
def phase1Step (m : List (String × String))
    (acc : CorrelationResults × List (Det × SensorKind))
    (ds : Det × SensorKind) :
    CorrelationResults × List (Det × SensorKind) :=
  match ds.1.mmsi with
  | some s =>
    if s ≠ "" then
      match dget m s with
      | some trackId => (rappend acc.1 trackId (ds.1, ds.2, 1), acc.2)
      | none => (acc.1, acc.2 ++ [ds])
    else (acc.1, acc.2 ++ [ds])
  | none => (acc.1, acc.2 ++ [ds])

/-- Whether phase 1 consumes the detection: a truthy mmsi bound in the map. -/
def phase1Matched (m : List (String × String)) (ds : Det × SensorKind) :
    Bool :=
  match ds.1.mmsi with
  | some s => !(s = "") && (dget m s).isSome
  | none => false

/-- The phase-1 loop of `batch_correlate` (correlation.py lines 122-132). -/
def phase1 (dets : List (Det × SensorKind)) (m : List (String × String))
    (init : CorrelationResults) :
    CorrelationResults × List (Det × SensorKind) :=
  dets.foldl (phase1Step m) (init, [])

/-- The cost matrix of phase 2 (correlation.py lines 146-159): entries start
at `1e6`; a feasible (detection, track) pair costs `1 - confidence`; the
per-detection pseudo-column `n_tracks + i` costs `new_track_cost`. -/
noncomputable def costMatrix (gates : CorrelationGates)
    (remaining : List (Det × SensorKind)) (trackList : List (String × Track))
    (timestamp : ℚ) (i j : ℕ) : ℝ :=
  let nTracks := trackList.length
  if hj : j < nTracks then
    match remaining.get? i with
    | some ds =>
      let conf := (correlateDetection gates ds.1 ds.2
        [trackList.get ⟨j, hj⟩] timestamp).2
      if 0 < conf then 1 - conf else 1e6
    | none => 1e6
  else if j = nTracks + i then gates.new_track_cost
  else 1e6

/-- An abstract minimum-cost assignment solver standing for
`scipy.optimize.linear_sum_assignment`: given the cost matrix and the
numbers of rows and columns it returns the chosen `(row, column)` pairs.
The claims proved below hold for every solver output. -/
abbrev Solver := (ℕ → ℕ → ℝ) → ℕ → ℕ → List (ℕ × ℕ)

/-- The result-building loop of phase 2 (correlation.py lines 165-175). -/
noncomputable def phase2Build (gates : CorrelationGates)
    (remaining : List (Det × SensorKind)) (trackList : List (String × Track))
    (timestamp : ℚ) (pairs : List (ℕ × ℕ)) (init : CorrelationResults) :
    CorrelationResults :=
  let nTracks := trackList.length
  pairs.foldl
    (fun rs (ij : ℕ × ℕ) =>
      match remaining.get? ij.1 with
      | some ds =>
        if hj : ij.2 < nTracks then
          rappend rs (trackList.get ⟨ij.2, hj⟩).1
            (ds.1, ds.2, 1 - costMatrix gates remaining trackList timestamp ij.1 ij.2)
        else rappend rs "NEW" (ds.1, ds.2, 0)
      | none => rs)
    init

open Classical in
/-- `batch_correlate` (correlation.py lines 96-177): phase 1 assigns by mmsi
deterministically, phase 2 runs the gated GNN assignment over the remaining
detections only. -/
noncomputable def batchCorrelate (gates : CorrelationGates) (solver : Solver)
    (dets : List (Det × SensorKind)) (tracks : List (String × Track))
    (timestamp : ℚ) : CorrelationResults :=
  if dets = [] then []
  else
    let m := mmsiToTrack tracks
    let p := phase1 dets m [("NEW", [])]
    let results := p.1
    let remaining := p.2
    if remaining = [] then results
    else if tracks = [] then
      remaining.foldl (fun rs ds => rappend rs "NEW" (ds.1, ds.2, 0)) results
    else
      let nDet := remaining.length
      let nTracks := tracks.length
      let cost := costMatrix gates remaining tracks timestamp
      let pairs := solver cost nDet (nTracks + nDet)
      phase2Build gates remaining tracks timestamp pairs results

/-! ### Track manager (`fusion/track_manager.py`) -/

/-- `_apply_detection_data` (track_manager.py lines 160-197).  For AIS the
identity block and the dark-state clearing run only under
`if detection.get("mmsi"):` — a truthy mmsi. -/
def applyDetectionData (track : Track) (det : Det) (sensorType : SensorKind)
    (now : ℚ) : Track :=
  match sensorType with
  | .ais =>
      if truthyStr det.mmsi then
        { track with
          identity_source := .ais
          mmsi := det.mmsi
          ship_name := det.ship_name
          vessel_type := det.ship_type
          ais_last_seen := some now
          is_dark_ship := false
          dark_ship_confidence := 0
          flagged_for_review := false
          alert_reason := none }
      else track
  | .drone =>
      { track with
        vessel_type :=
          if truthyStr det.object_class then det.object_class
          else track.vessel_type
        vessel_length_m :=
          if truthyQ det.estimated_length_m then det.estimated_length_m
          else track.vessel_length_m }
  | .satellite =>
      let track :=
        { track with
          vessel_length_m :=
            if truthyQ det.vessel_length_m then det.vessel_length_m
            else track.vessel_length_m }
      if det.is_dark_ship then
        if track.identity_source ≠ .ais then
          { track with
            is_dark_ship := true
            dark_ship_confidence := max track.dark_ship_confidence (3/5) }
        else track
      else track
  | .radar => track

/-- `_update_velocity` (track_manager.py lines 199-212): only an observation
carrying both speed and course overwrites the fused kinematics; the velocity
components use the knots→m/s factor 0.5144. -/
noncomputable def updateVelocity (track : Track) (det : Det) : Track :=
  match det.speed_knots, det.course with
  | some speed, some course =>
      let speedMs : ℝ := (speed : ℝ) * 0.5144
      { track with
        speed_knots := some speed
        course := some course
        velocity_north_ms := speedMs * Real.cos (radiansR (course : ℝ))
        velocity_east_ms := speedMs * Real.sin (radiansR (course : ℝ)) }
  | _, _ => track

/-- `_update_track_status` (track_manager.py lines 214-221). -/
def updateTrackStatus (gates : CorrelationGates) (track : Track) : Track :=
  match track.status with
  | .tentative =>
      if gates.tentative_to_confirmed_updates ≤ track.update_count then
        { track with status := .confirmed }
      else track
  | .coasting => { track with status := .confirmed }
  | _ => track

open Classical in
/-- `_update_track_quality` (track_manager.py lines 223-241). -/
noncomputable def updateTrackQuality (track : Track) : Track :=
  let quality := track.contributing_sensors.length * 10 +
    min track.update_count 6 * 5 +
    (if track.position_uncertainty_m < 100 then 30
     else if track.position_uncertainty_m < 500 then 20
     else if track.position_uncertainty_m < 1000 then 10
     else 0)
  { track with track_quality := min 100 quality }

/-- `create_track` (track_manager.py lines 47-89).  The uuid-derived track id
and the wall-clock `now` are parameters of the embedding. -/
def createTrack (trackId : String) (det : Det) (sensorType : SensorKind)
    (sensorId : String) (now : ℚ) : Track :=
  let track : Track :=
    { track_id := trackId
      created_at := now
      updated_at := now
      status := .tentative
      latitude := det.latitude
      longitude := det.longitude
      speed_knots := det.speed_knots
      course := det.course
      heading := none
      position_uncertainty_m := (SENSOR_CONFIG sensorType).position_error_m
      velocity_north_ms := 0
      velocity_east_ms := 0
      identity_source := .unknown
      mmsi := none
      ship_name := none
      vessel_type := none
      vessel_length_m := none
      is_dark_ship := false
      dark_ship_confidence := 0
      ais_last_seen := none
      ais_gap_seconds := none
      sensor_contributions := []
      contributing_sensors := []
      track_quality := 0
      correlation_confidence := 0
      update_count := 0
      flagged_for_review := false
      alert_reason := none }
  let track := applyDetectionData track det sensorType now
  let track :=
    { track with
      sensor_contributions := sset track.sensor_contributions sensorType
        { sensor_type := sensorType
          sensor_id := sensorId
          last_update := now
          measurement_count := 1
          last_position := (det.latitude, det.longitude)
          confidence := 1 }
      contributing_sensors := track.contributing_sensors ++ [sensorType]
      update_count := 1 }
  track

/-- The inverse-variance position fusion block of `update_track`
(track_manager.py lines 104-120). -/
noncomputable def fusePosition (track : Track) (det : Det)
    (sensorErrorM : ℝ) : Track :=
  let trackWeight := 1 / track.position_uncertainty_m ^ 2
  let detWeight := 1 / sensorErrorM ^ 2
  let totalWeight := trackWeight + detWeight
  { track with
    latitude := (track.latitude * trackWeight + det.latitude * detWeight) /
      totalWeight
    longitude := (track.longitude * trackWeight + det.longitude * detWeight) /
      totalWeight
    position_uncertainty_m := 1 / Real.sqrt totalWeight }

/-- The sensor-contribution block of `update_track` (track_manager.py lines
128-144). -/
def updateContribution (track : Track) (det : Det) (sensorType : SensorKind)
    (sensorId : String) (confidence : ℝ) (now : ℚ) : Track :=
  match sget track.sensor_contributions sensorType with
  | some contrib =>
      { track with
        sensor_contributions := sset track.sensor_contributions sensorType
          { contrib with
            last_update := now
            measurement_count := contrib.measurement_count + 1
            last_position := (det.latitude, det.longitude)
            confidence := max contrib.confidence confidence } }
  | none =>
      { track with
        sensor_contributions := sset track.sensor_contributions sensorType
          { sensor_type := sensorType
            sensor_id := sensorId
            last_update := now
            measurement_count := 1
            last_position := (det.latitude, det.longitude)
            confidence := confidence }
        contributing_sensors := track.contributing_sensors ++ [sensorType] }

/-- `update_track` (track_manager.py lines 91-158), as the pure state
transformation applied to the looked-up track. -/
noncomputable def updateTrack (gates : CorrelationGates) (track : Track)
    (det : Det) (sensorType : SensorKind) (sensorId : String)
    (confidence : ℝ) (now : ℚ) : Track :=
  let sensorChar := SENSOR_CONFIG sensorType
  let track := fusePosition track det sensorChar.position_error_m
  let track := updateVelocity track det
  let track := applyDetectionData track det sensorType now
  let track := updateContribution track det sensorType sensorId confidence now
  let track :=
    { track with
      updated_at := now
      update_count := track.update_count + 1
      correlation_confidence := max track.correlation_confidence confidence }
  let track := updateTrackStatus gates track
  updateTrackQuality track

/-- `_has_recent_non_ais_updates` (track_manager.py lines 292-303). -/
def hasRecentNonAisUpdates (track : Track) (now : ℚ) (thresholdS : ℚ) :
    Bool :=
  track.sensor_contributions.any fun p =>
    p.1 ≠ .ais ∧ now - p.2.last_update < thresholdS

/-- `_calculate_dark_confidence` (track_manager.py lines 305-320). -/
def calculateDarkConfidence (dark : DarkShipDetectionConfig) (track : Track) :
    ℚ :=
  let confidence : ℚ := 1/2
  let confidence := confidence +
    (if track.contributing_sensors.contains .radar then
      match sget track.sensor_contributions .radar with
      | some c =>
          if dark.min_radar_correlations ≤ c.measurement_count then
            dark.radar_confidence_boost
          else 0
      | none => 0
    else 0)
  let confidence := confidence +
    (if track.contributing_sensors.contains .satellite then
      dark.satellite_confidence_boost else 0)
  let confidence := confidence +
    (if track.contributing_sensors.contains .drone then
      dark.drone_confidence_boost else 0)
  min 1 confidence

/-- The alert reason string `f"AIS gap: {gap/60:.0f} minutes"`
(track_manager.py line 265). -/
def aisGapReason (gap : ℚ) : String :=
  "AIS gap: " ++ toString (pyRound (gap / 60)) ++ " minutes"

/-- The per-track body of `check_dark_ships` (track_manager.py lines
243-290).  The AIS-identity branch ends in `continue`, so a track entering
it never reaches the unknown-identity branch; both dark transitions are
guarded by `not track.is_dark_ship`. -/
def checkDarkTrack (dark : DarkShipDetectionConfig) (now : ℚ)
    (track : Track) : Track :=
  if track.status = .dropped then track
  else if track.identity_source = .ais ∧ track.ais_last_seen.isSome then
    let gap := now - track.ais_last_seen.getD 0
    let track := { track with ais_gap_seconds := some gap }
    if dark.ais_gap_threshold_s < gap then
      if hasRecentNonAisUpdates track now 120 ∧ ¬track.is_dark_ship then
        { track with
          is_dark_ship := true
          dark_ship_confidence := min 1 (gap / 3600)
          flagged_for_review := true
          alert_reason := some (aisGapReason gap) }
      else track
    else track
  else if track.identity_source = .unknown then
    let nonAisSensors := track.contributing_sensors.filter (· ≠ .ais)
    if 2 ≤ nonAisSensors.length ∨ nonAisSensors.contains .drone then
      if ¬track.is_dark_ship then
        let track :=
          { track with
            is_dark_ship := true
            dark_ship_confidence := calculateDarkConfidence dark track }
        if dark.dark_ship_alert_threshold ≤ track.dark_ship_confidence then
          { track with
            flagged_for_review := true
            alert_reason := some "Dark ship (multi-sensor)" }
        else track
      else track
    else track
  else track

/-- `check_dark_ships` over the whole track dict. -/
def checkDarkShips (dark : DarkShipDetectionConfig) (now : ℚ)
    (tracks : List (String × Track)) : List (String × Track) :=
  tracks.map fun p => (p.1, checkDarkTrack dark now p.2)

open Classical in
/-- The per-track body of `age_tracks` (track_manager.py lines 322-342):
dropped tracks are skipped; a gap beyond `drop_timeout_s` drops the track;
otherwise a gap beyond `coasting_timeout_s` moves a non-coasting track to
coasting and inflates its uncertainty by 1.5×, capped at 5000 m. -/
noncomputable def ageTrack (gates : CorrelationGates) (now : ℚ)
    (track : Track) : Track :=
  if track.status = .dropped then track
  else
    let timeSinceUpdate := now - track.updated_at
    if gates.drop_timeout_s < timeSinceUpdate then
      { track with status := .dropped }
    else if gates.coasting_timeout_s < timeSinceUpdate then
      if track.status ≠ .coasting then
        { track with
          status := .coasting
          position_uncertainty_m :=
            min 5000 (track.position_uncertainty_m * 1.5) }
      else track
    else track

/-- `age_tracks` over the whole track dict. -/
noncomputable def ageTracks (gates : CorrelationGates) (now : ℚ)
    (tracks : List (String × Track)) : List (String × Track) :=
  tracks.map fun p => (p.1, ageTrack gates now p.2)

/-- `get_active_tracks` (track_manager.py lines 344-349). -/
def getActiveTracks (tracks : List (String × Track)) :
    List (String × Track) :=
  tracks.filter fun p => p.2.status ≠ .dropped

/-! ### Shared fleet and AIS ingester
(`shared/fleet_manager.py`, `ingesters/ais_nmea_ingester.py`) -/

/-- The ground-truth `Ship` of the shared fleet (fleet_manager.py lines
200-230), restricted to the fields the AIS ingester reads. -/
structure Ship where
  mmsi : String
  name : String
  vessel_type : String
  latitude : ℝ
  longitude : ℝ
  speed : ℚ
  course : ℚ
  heading : ℚ
  nav_status : ℤ
  length_m : ℚ
  ais_enabled : Bool

/-- The `MaritimePosition` report built by `_process_unified`
(ais_nmea_ingester.py lines 135-152), restricted to the fields it sets. -/
structure MaritimePosition where
  timestamp : ℚ
  latitude : ℝ
  longitude : ℝ
  mmsi : Option String
  ship_name : Option String
  ship_type : Option String
  speed_knots : Option ℚ
  heading : Option ℚ
  course : Option ℚ
  ais_class : String

/-- The position report for one ship, with the ±10 m uniform position error
passed in as the drawn offsets (ais_nmea_ingester.py lines 99-106, 135-152). -/
def mkAisPosition (ship : Ship) (errLat errLon : ℝ) (now : ℚ) :
    MaritimePosition :=
  { timestamp := now
    latitude := ship.latitude + errLat
    longitude := ship.longitude + errLon
    mmsi := some ship.mmsi
    ship_name := some ship.name
    ship_type := some ship.vessel_type
    speed_knots := some ship.speed
    heading := some ship.heading
    course := some ship.course
    ais_class := if (50 : ℚ) < ship.length_m then "A" else "B" }

/-- `_process_unified` (ais_nmea_ingester.py lines 108-154): the list of
positions published to `ais:positions` in one cycle over the fleet
snapshot.  The `random.random()` draws are supplied per ship index:
a ship is skipped when its AIS is off, when `transmitDraw > 0.8`
(`TRANSMISSION_RATE`), or when `lossDraw < 0.05` (`PACKET_LOSS_RATE`). -/
def processUnified (now : ℚ) (transmitDraw lossDraw : ℕ → ℚ)
    (errLat errLon : ℕ → ℝ) : ℕ → List Ship → List MaritimePosition
  | _, [] => []
  | i, ship :: rest =>
    if !ship.ais_enabled then
      processUnified now transmitDraw lossDraw errLat errLon (i + 1) rest
    else if (4/5 : ℚ) < transmitDraw i then
      processUnified now transmitDraw lossDraw errLat errLon (i + 1) rest
    else if lossDraw i < (1/20 : ℚ) then
      processUnified now transmitDraw lossDraw errLat errLon (i + 1) rest
    else
      mkAisPosition ship (errLat i) (errLon i) now ::
        processUnified now transmitDraw lossDraw errLat errLon (i + 1) rest

/-- One row of `VESSEL_TYPES` (fleet_manager.py lines 331-341). -/
structure VesselTypeSpec where
  name : String
  fraction : ℚ
  min_len : ℚ
  max_len : ℚ
  min_spd : ℚ
  max_spd : ℚ
  base_dark_prob : ℚ
  deriving DecidableEq

/-- `VESSEL_TYPES` (fleet_manager.py lines 331-341). -/
def VESSEL_TYPES : List VesselTypeSpec :=
  [⟨"cargo", 3/10, 100, 200, 10, 16, 1/50⟩,
   ⟨"tanker", 1/4, 150, 350, 8, 14, 3/100⟩,
   ⟨"container", 1/5, 200, 400, 14, 24, 1/100⟩,
   ⟨"fishing", 3/25, 20, 50, 2, 8, 3/20⟩,
   ⟨"passenger", 1/20, 150, 300, 15, 22, 0⟩,
   ⟨"naval", 3/100, 50, 200, 15, 35, 1/20⟩,
   ⟨"tug", 3/100, 20, 40, 5, 12, 1/100⟩,
   ⟨"unknown", 1/50, 30, 100, 5, 15, 1⟩]

/-- The threshold compared against the uniform draw in `initialize_fleet`
(fleet_manager.py line 469): `base_dark_prob + dark_ship_pct / 100`. -/
def codeInitialDarkThreshold (baseDarkProb darkShipPct : ℚ) : ℚ :=
  baseDarkProb + darkShipPct / 100

/-- `is_dark = random.random() < (base_dark_prob + dark_ship_pct / 100)`
(fleet_manager.py line 469). -/
def initFleetIsDark (draw baseDarkProb darkShipPct : ℚ) : Bool :=
  draw < codeInitialDarkThreshold baseDarkProb darkShipPct

/-- `ais_enabled = not is_dark` (fleet_manager.py line 503). -/
def initFleetAisEnabled (draw baseDarkProb darkShipPct : ℚ) : Bool :=
  !initFleetIsDark draw baseDarkProb darkShipPct

/-- Modelled from the spec: the initial dark threshold the spec asserts,
`max(class base-dark-rate, dark_pct/100)` — stated for comparison with
`codeInitialDarkThreshold`, which is what the source computes. -/
def specInitialDarkThreshold (baseDarkProb darkShipPct : ℚ) : ℚ :=
  max baseDarkProb (darkShipPct / 100)

/-! ### Fusion runner step (`fusion/fusion_ingester.py` `process_batch`) -/

/-- The track dict owned by the track manager. -/
abbrev TMState := List (String × Track)

/-- One `"NEW"` creation (fusion_ingester.py lines 216-220): a fresh track
keyed by the next uuid of the supply;
`sensor_id = det.get("sensor_id", sensor_type.upper())` (line 219). -/
def createStep (idGen : ℕ → String) (now : ℚ) (acc : TMState × ℕ)
    (a : Assignment) : TMState × ℕ :=
  let sensorId := a.1.sensor_id.getD a.2.1.upper
  (dset acc.1 (idGen acc.2)
    (createTrack (idGen acc.2) a.1 a.2.1 sensorId now),
   acc.2 + 1)

/-- One measurement update of an assigned track (fusion_ingester.py lines
221-228). -/
noncomputable def updateStep (gates : CorrelationGates) (trackId : String)
    (now : ℚ) (st : TMState) (a : Assignment) : TMState :=
  let sensorId := a.1.sensor_id.getD a.2.1.upper
  dmodify st trackId
    (fun tr => updateTrack gates tr a.1 a.2.1 sensorId a.2.2 now)

/-- The assignment-processing loop of `process_batch` (fusion_ingester.py
lines 214-228): `"NEW"` entries create tracks, other keys update the named
track, in dict-iteration order. -/
noncomputable def processAssignments (gates : CorrelationGates)
    (results : CorrelationResults) (idGen : ℕ → String) (now : ℚ)
    (s : TMState) : TMState :=
  (results.foldl
    (fun (acc : TMState × ℕ) kv =>
      if kv.1 = "NEW" then kv.2.foldl (createStep idGen now) acc
      else (kv.2.foldl (updateStep gates kv.1 now) acc.1, acc.2))
    (s, 0)).1

/-- `process_batch` (fusion_ingester.py lines 194-234): correlate the parsed
batch against the active tracks, create/update, then run the dark-ship
check and the age step over the whole dict. -/
noncomputable def processBatch (gates : CorrelationGates)
    (dark : DarkShipDetectionConfig) (solver : Solver)
    (dets : List (Det × SensorKind)) (idGen : ℕ → String) (now : ℚ)
    (s : TMState) : TMState :=
  let active := getActiveTracks s
  let assignments := batchCorrelate gates solver dets active now
  let s := processAssignments gates assignments idGen now s
  let s := checkDarkShips dark now s
  ageTracks gates now s

/-- One track-manager operation as driven by the fusion runner: a full
measurement batch, a standalone dark-ship check, or a standalone age step. -/
inductive FusionOp where
  | batch (solver : Solver) (dets : List (Det × SensorKind))
      (idGen : ℕ → String) (now : ℚ)
  | dark (now : ℚ)
  | age (now : ℚ)

/-- Apply one operation with the runner's default configuration
(fusion_ingester.py lines 78-79 construct the dataclass defaults). -/
noncomputable def applyOp (s : TMState) : FusionOp → TMState
  | .batch solver dets idGen now =>
      processBatch defaultGates defaultDarkConfig solver dets idGen now s
  | .dark now => checkDarkShips defaultDarkConfig now s
  | .age now => ageTracks defaultGates now s

/-- A sequence of runner-driven operations. -/
noncomputable def applyOps (s : TMState) : List FusionOp → TMState
  | [] => s
  | op :: ops => applyOps (applyOp s op) ops

/-- Freshness of the uuid supply of a batch operation relative to an
existing track id: uuid-generated ids never collide with it. -/
def FreshFor (tid : String) : FusionOp → Prop
  | .batch _ _ idGen _ => ∀ k, idGen k ≠ tid
  | .dark _ => True
  | .age _ => True

/-! ### Spec-side definition for position fusion (§4.6 of the spec) -/

/-- Modelled from the spec: the inverse-variance weighted average
`(a·w_a + b·w_b)/(w_a + w_b)` with `w = 1/σ²` — stated for comparison with
what `update_track` computes. -/
noncomputable def invVarWeightedAvg (a : ℝ) (σa : ℝ) (b : ℝ) (σb : ℝ) : ℝ :=
  (a * (1 / σa ^ 2) + b * (1 / σb ^ 2)) / (1 / σa ^ 2 + 1 / σb ^ 2)

/-! ### Concrete sample data for witnesses and counterexamples -/

/-- A track with the `UnifiedTrack` schema defaults (schema.py lines 43-95)
at a concrete position. -/
def baseTrack : Track :=
  { track_id := "TRK-0001"
    created_at := 0
    updated_at := 0
    status := .tentative
    latitude := 18.9
    longitude := 72.8
    speed_knots := none
    course := none
    heading := none
    position_uncertainty_m := 1000
    velocity_north_ms := 0
    velocity_east_ms := 0
    identity_source := .unknown
    mmsi := none
    ship_name := none
    vessel_type := none
    vessel_length_m := none
    is_dark_ship := false
    dark_ship_confidence := 0
    ais_last_seen := none
    ais_gap_seconds := none
    sensor_contributions := []
    contributing_sensors := []
    track_quality := 0
    correlation_confidence := 0
    update_count := 0
    flagged_for_review := false
    alert_reason := none }

/-- An AIS detection carrying identity and kinematics. -/
def aisDet : Det :=
  { latitude := 18.9
    longitude := 72.8
    mmsi := some "123456789"
    ship_name := some "OCEAN STAR"
    ship_type := some "cargo"
    speed_knots := some 10
    course := some 90
    sensor_id := some "AIS" }

/-- A radar provenance entry last refreshed at `t = 1990`. -/
def radarContrib : SensorContribution :=
  { sensor_type := .radar
    sensor_id := "RAD-MUM"
    last_update := 1990
    measurement_count := 4
    last_position := (18.9, 72.8)
    confidence := 0.8 }

/-- An AIS-identified confirmed track whose AIS was last seen at `t₀ = 0`,
still carried by radar. -/
def aisGapTrack : Track :=
  { baseTrack with
    status := .confirmed
    identity_source := .ais
    ais_last_seen := some 0
    sensor_contributions := [(.radar, radarContrib)]
    contributing_sensors := [.ais, .radar] }

/-- The same track after it has already been marked dark at an earlier,
shorter AIS gap of 1000 s (confidence 1000/3600 = 5/18). -/
def alreadyDarkTrack : Track :=
  { aisGapTrack with
    is_dark_ship := true
    dark_ship_confidence := 5/18
    flagged_for_review := true
    alert_reason := some "AIS gap: 17 minutes" }

/-- A track with fused kinematics (10 kn at course 90°). -/
def kinTrack : Track :=
  { baseTrack with
    speed_knots := some 10
    course := some 90 }

/-- A wire message whose `course` field is `"0"` (true north) and whose
`speed_knots` field is `"7"`. -/
def rawZeroCourse : RawMsg :=
  { latitude := some 18.9
    longitude := some 72.8
    mmsi := some "123456789"
    speed_knots := some 7
    course := some 0 }

/-- A fleet ship with its AIS transponder on. -/
def litShip : Ship :=
  { mmsi := "111111111"
    name := "ATLANTIC UNITY"
    vessel_type := "cargo"
    latitude := 18.9
    longitude := 72.8
    speed := 10
    course := 90
    heading := 90
    nav_status := 0
    length_m := 150
    ais_enabled := true }

/-- A fleet ship running dark (`ais_enabled = false`). -/
def darkShip : Ship :=
  { litShip with
    mmsi := "222222222"
    name := "SHADOW VOID"
    ais_enabled := false }

/-! ## Shape lemmas: which fields each pipeline stage can touch -/

theorem updateVelocity_shape (t : Track) (d : Det) :
    ∃ sp co vn ve, updateVelocity t d =
      { t with
        speed_knots := sp
        course := co
        velocity_north_ms := vn
        velocity_east_ms := ve } := by
  rcases hsp : d.speed_knots with _ | sp <;>
    rcases hco : d.course with _ | co <;>
    exact ⟨_, _, _, _, by unfold updateVelocity; rw [hsp, hco]⟩

theorem updateContribution_shape (t : Track) (d : Det) (st : SensorKind)
    (sid : String) (c : ℝ) (now : ℚ) :
    ∃ sc cs, updateContribution t d st sid c now =
      { t with
        sensor_contributions := sc
        contributing_sensors := cs } := by
  rcases hg : sget t.sensor_contributions st with _ | contrib <;>
    exact ⟨_, _, by unfold updateContribution; rw [hg]⟩

theorem updateTrackStatus_shape (g : CorrelationGates) (t : Track) :
    ∃ st, updateTrackStatus g t = { t with status := st } := by
  unfold updateTrackStatus
  (repeat' split) <;>
    first
      | exact ⟨t.status, rfl⟩
      | exact ⟨TrackStatus.confirmed, rfl⟩

theorem updateTrackQuality_shape (t : Track) :
    ∃ q, updateTrackQuality t = { t with track_quality := q } :=
  ⟨_, rfl⟩

theorem fusePosition_uncertainty (t : Track) (d : Det) (e : ℝ) :
    (fusePosition t d e).position_uncertainty_m =
      1 / Real.sqrt (1 / t.position_uncertainty_m ^ 2 + 1 / e ^ 2) := rfl

theorem fusePosition_latitude (t : Track) (d : Det) (e : ℝ) :
    (fusePosition t d e).latitude =
      (t.latitude * (1 / t.position_uncertainty_m ^ 2) +
        d.latitude * (1 / e ^ 2)) /
      (1 / t.position_uncertainty_m ^ 2 + 1 / e ^ 2) := rfl

theorem fusePosition_longitude (t : Track) (d : Det) (e : ℝ) :
    (fusePosition t d e).longitude =
      (t.longitude * (1 / t.position_uncertainty_m ^ 2) +
        d.longitude * (1 / e ^ 2)) /
      (1 / t.position_uncertainty_m ^ 2 + 1 / e ^ 2) := rfl

theorem fusePosition_shape (t : Track) (d : Det) (e : ℝ) :
    ∃ la lo σ, fusePosition t d e =
      { t with
        latitude := la
        longitude := lo
        position_uncertainty_m := σ } :=
  ⟨_, _, _, rfl⟩

theorem applyDetectionData_position (t : Track) (d : Det) (st : SensorKind)
    (now : ℚ) :
    (applyDetectionData t d st now).latitude = t.latitude ∧
    (applyDetectionData t d st now).longitude = t.longitude ∧
    (applyDetectionData t d st now).position_uncertainty_m =
      t.position_uncertainty_m := by
  cases st <;> unfold applyDetectionData <;> dsimp only <;>
    (repeat' split) <;> exact ⟨rfl, rfl, rfl⟩

theorem updateVelocity_position_uncertainty (t : Track) (d : Det) :
    (updateVelocity t d).position_uncertainty_m = t.position_uncertainty_m := by
  obtain ⟨sp, co, vn, ve, h⟩ := updateVelocity_shape t d
  rw [h]

theorem updateVelocity_latitude (t : Track) (d : Det) :
    (updateVelocity t d).latitude = t.latitude := by
  obtain ⟨sp, co, vn, ve, h⟩ := updateVelocity_shape t d
  rw [h]

theorem updateVelocity_longitude (t : Track) (d : Det) :
    (updateVelocity t d).longitude = t.longitude := by
  obtain ⟨sp, co, vn, ve, h⟩ := updateVelocity_shape t d
  rw [h]

theorem updateContribution_position_uncertainty (t : Track) (d : Det)
    (st : SensorKind) (sid : String) (c : ℝ) (now : ℚ) :
    (updateContribution t d st sid c now).position_uncertainty_m =
      t.position_uncertainty_m := by
  obtain ⟨sc, cs, h⟩ := updateContribution_shape t d st sid c now
  rw [h]

theorem updateContribution_latitude (t : Track) (d : Det) (st : SensorKind)
    (sid : String) (c : ℝ) (now : ℚ) :
    (updateContribution t d st sid c now).latitude = t.latitude := by
  obtain ⟨sc, cs, h⟩ := updateContribution_shape t d st sid c now
  rw [h]

theorem updateContribution_longitude (t : Track) (d : Det) (st : SensorKind)
    (sid : String) (c : ℝ) (now : ℚ) :
    (updateContribution t d st sid c now).longitude = t.longitude := by
  obtain ⟨sc, cs, h⟩ := updateContribution_shape t d st sid c now
  rw [h]

theorem updateTrackStatus_position_uncertainty (g : CorrelationGates)
    (t : Track) :
    (updateTrackStatus g t).position_uncertainty_m =
      t.position_uncertainty_m := by
  obtain ⟨st, h⟩ := updateTrackStatus_shape g t
  rw [h]

theorem updateTrackStatus_latitude (g : CorrelationGates) (t : Track) :
    (updateTrackStatus g t).latitude = t.latitude := by
  obtain ⟨st, h⟩ := updateTrackStatus_shape g t
  rw [h]

theorem updateTrackStatus_longitude (g : CorrelationGates) (t : Track) :
    (updateTrackStatus g t).longitude = t.longitude := by
  obtain ⟨st, h⟩ := updateTrackStatus_shape g t
  rw [h]

theorem updateTrackQuality_position_uncertainty (t : Track) :
    (updateTrackQuality t).position_uncertainty_m =
      t.position_uncertainty_m := rfl

theorem updateTrackQuality_latitude (t : Track) :
    (updateTrackQuality t).latitude = t.latitude := rfl

theorem updateTrackQuality_longitude (t : Track) :
    (updateTrackQuality t).longitude = t.longitude := rfl

theorem applyDetectionData_latitude (t : Track) (d : Det) (st : SensorKind)
    (now : ℚ) : (applyDetectionData t d st now).latitude = t.latitude :=
  (applyDetectionData_position t d st now).1

theorem applyDetectionData_longitude (t : Track) (d : Det) (st : SensorKind)
    (now : ℚ) : (applyDetectionData t d st now).longitude = t.longitude :=
  (applyDetectionData_position t d st now).2.1

theorem applyDetectionData_uncertainty (t : Track) (d : Det)
    (st : SensorKind) (now : ℚ) :
    (applyDetectionData t d st now).position_uncertainty_m =
      t.position_uncertainty_m :=
  (applyDetectionData_position t d st now).2.2

/-- Every sensor of `SENSOR_CONFIG` has a strictly positive 1-σ position
error. -/
theorem sensor_position_error_pos (st : SensorKind) :
    0 < (SENSOR_CONFIG st).position_error_m := by
  cases st <;> norm_num [SENSOR_CONFIG]

/-- The position fields of `update_track` come from the inverse-variance
fusion block; no later stage of the update pipeline touches them. -/
theorem updateTrack_position_fields (gates : CorrelationGates) (track : Track)
    (det : Det) (st : SensorKind) (sid : String) (conf : ℝ) (now : ℚ) :
    (updateTrack gates track det st sid conf now).position_uncertainty_m =
      (fusePosition track det
        (SENSOR_CONFIG st).position_error_m).position_uncertainty_m ∧
    (updateTrack gates track det st sid conf now).latitude =
      (fusePosition track det (SENSOR_CONFIG st).position_error_m).latitude ∧
    (updateTrack gates track det st sid conf now).longitude =
      (fusePosition track det (SENSOR_CONFIG st).position_error_m).longitude := by
  unfold updateTrack
  refine ⟨?_, ?_, ?_⟩ <;>
    simp only [updateTrackQuality_position_uncertainty,
      updateTrackQuality_latitude, updateTrackQuality_longitude,
      updateTrackStatus_position_uncertainty, updateTrackStatus_latitude,
      updateTrackStatus_longitude, updateContribution_position_uncertainty,
      updateContribution_latitude, updateContribution_longitude,
      applyDetectionData_uncertainty, applyDetectionData_latitude,
      applyDetectionData_longitude, updateVelocity_position_uncertainty,
      updateVelocity_latitude, updateVelocity_longitude]

/-- C5: for a track with `σ_t > 0` updated by a sensor with position error
`σ_s > 0` (every configured sensor's error is positive,
`sensor_position_error_pos`), `update_track` sets the new uncertainty to
`1/√(1/σ_t² + 1/σ_s²)`, which is strictly below `min(σ_t, σ_s)`, and sets
the new latitude/longitude to the inverse-variance weighted average of the
old track position and the observation position. -/
theorem update_track_inverse_variance_fusion (gates : CorrelationGates)
    (track : Track) (det : Det) (sensorType : SensorKind) (sensorId : String)
    (confidence : ℝ) (now : ℚ)
    (hσ : 0 < track.position_uncertainty_m) :
    (updateTrack gates track det sensorType sensorId confidence
        now).position_uncertainty_m =
      1 / Real.sqrt (1 / track.position_uncertainty_m ^ 2 +
        1 / (SENSOR_CONFIG sensorType).position_error_m ^ 2) ∧
    (updateTrack gates track det sensorType sensorId confidence
        now).position_uncertainty_m <
      min track.position_uncertainty_m
        (SENSOR_CONFIG sensorType).position_error_m ∧
    (updateTrack gates track det sensorType sensorId confidence
        now).latitude =
      invVarWeightedAvg track.latitude track.position_uncertainty_m
        det.latitude (SENSOR_CONFIG sensorType).position_error_m ∧
    (updateTrack gates track det sensorType sensorId confidence
        now).longitude =
      invVarWeightedAvg track.longitude track.position_uncertainty_m
        det.longitude (SENSOR_CONFIG sensorType).position_error_m := by
  obtain ⟨hu, hla, hlo⟩ :=
    updateTrack_position_fields gates track det sensorType sensorId
      confidence now
  set σt := track.position_uncertainty_m with hσt
  set σs := (SENSOR_CONFIG sensorType).position_error_m with hσs
  have hσspos : 0 < σs := sensor_position_error_pos sensorType
  have hwt : 0 < 1 / σt ^ 2 := by positivity
  have hwo : 0 < 1 / σs ^ 2 := by positivity
  have hsqrt_t : Real.sqrt (1 / σt ^ 2) = 1 / σt := by
    rw [one_div, Real.sqrt_inv, Real.sqrt_sq hσ.le, one_div]
  have hsqrt_s : Real.sqrt (1 / σs ^ 2) = 1 / σs := by
    rw [one_div, Real.sqrt_inv, Real.sqrt_sq hσspos.le, one_div]
  have hlt_t : Real.sqrt (1 / σt ^ 2) < Real.sqrt (1 / σt ^ 2 + 1 / σs ^ 2) :=
    Real.sqrt_lt_sqrt hwt.le (lt_add_of_pos_right _ hwo)
  have hlt_s : Real.sqrt (1 / σs ^ 2) < Real.sqrt (1 / σt ^ 2 + 1 / σs ^ 2) :=
    Real.sqrt_lt_sqrt hwo.le (lt_add_of_pos_left _ hwt)
  have hbound_t : 1 / Real.sqrt (1 / σt ^ 2 + 1 / σs ^ 2) < σt := by
    have h := one_div_lt_one_div_of_lt (by positivity) hlt_t
    rwa [hsqrt_t, one_div_one_div] at h
  have hbound_s : 1 / Real.sqrt (1 / σt ^ 2 + 1 / σs ^ 2) < σs := by
    have h := one_div_lt_one_div_of_lt (by positivity) hlt_s
    rwa [hsqrt_s, one_div_one_div] at h
  refine ⟨by rw [hu, fusePosition_uncertainty], ?_, ?_, ?_⟩
  · rw [hu, fusePosition_uncertainty]
    exact lt_min hbound_t hbound_s
  · rw [hla, fusePosition_latitude, invVarWeightedAvg]
  · rw [hlo, fusePosition_longitude, invVarWeightedAvg]

/-- Witness for C5: a track with `σ_t = 3` m updated by an AIS observation
(`σ_s = 10` m). -/
theorem update_track_inverse_variance_fusion_witness :
    (0 : ℝ) <
      ({ baseTrack with position_uncertainty_m := 3 } :
        Track).position_uncertainty_m ∧
    (updateTrack defaultGates { baseTrack with position_uncertainty_m := 3 }
        aisDet .ais "AIS" 1 10).position_uncertainty_m <
      min ({ baseTrack with position_uncertainty_m := 3 } :
          Track).position_uncertainty_m
        (SENSOR_CONFIG .ais).position_error_m := by
  have h : (0 : ℝ) < 3 := by norm_num
  exact ⟨h,
    (update_track_inverse_variance_fusion defaultGates
      { baseTrack with position_uncertainty_m := 3 }
      aisDet .ais "AIS" 1 10 h).2.1⟩

/-- C6 (code evaluation): `create_track` on an AIS detection sets the track
uncertainty to the AIS sensor error of 10 m, strictly below the configured
`min_position_uncertainty_m = 100`; the `[100, 5000]` clamp declared in
`CorrelationGates` (config.py lines 74-76) is never applied anywhere in the
track manager, so the claimed invariant fails immediately at creation. -/
theorem create_track_ais_uncertainty_below_min :
    (createTrack "TRK-0002" aisDet .ais "AIS" 0).position_uncertainty_m = 10 ∧
    ¬(defaultGates.min_position_uncertainty_m ≤
        (createTrack "TRK-0002" aisDet .ais "AIS" 0).position_uncertainty_m) := by
  constructor
  · rfl
  · show ¬((100 : ℝ) ≤ 10)
    norm_num

/-- C7: for a non-dropped track, the age step at time `t` (i) moves a
non-coasting track with `coast_timeout < gap ≤ drop_timeout` to coasting
with its uncertainty set to exactly `min(5000, σ·1.5)`, (ii) leaves a track
that is already coasting (and not yet due for dropping) entirely unchanged
— no repeated inflation — and (iii) drops a track with
`gap > drop_timeout`. -/
theorem age_tracks_lifecycle (now : ℚ) (track : Track)
    (h : track.status ≠ .dropped) :
    (defaultGates.coasting_timeout_s < now - track.updated_at →
      now - track.updated_at ≤ defaultGates.drop_timeout_s →
      track.status ≠ .coasting →
      (ageTrack defaultGates now track).status = .coasting ∧
      (ageTrack defaultGates now track).position_uncertainty_m =
        min 5000 (track.position_uncertainty_m * 1.5)) ∧
    (track.status = .coasting →
      now - track.updated_at ≤ defaultGates.drop_timeout_s →
      ageTrack defaultGates now track = track) ∧
    (defaultGates.drop_timeout_s < now - track.updated_at →
      (ageTrack defaultGates now track).status = .dropped) := by
  refine ⟨fun h1 h2 h3 => ?_, fun hc h2 => ?_, fun h1 => ?_⟩
  · unfold ageTrack
    dsimp only
    rw [if_neg h, if_neg (not_lt.mpr h2), if_pos h1, if_pos h3]
    exact ⟨rfl, rfl⟩
  · unfold ageTrack
    dsimp only
    rw [if_neg h, if_neg (not_lt.mpr h2)]
    by_cases h3 : defaultGates.coasting_timeout_s < now - track.updated_at
    · rw [if_pos h3, if_neg (fun hne => hne hc)]
    · rw [if_neg h3]
  · unfold ageTrack
    dsimp only
    rw [if_neg h, if_pos h1]

/-- Witness for C7: the base tentative track, last updated at `t = 0`, aged
at `t = 400` (gap 400 ∈ (300, 600]). -/
theorem age_tracks_lifecycle_witness :
    (ageTrack defaultGates 400 baseTrack).status = .coasting ∧
    (ageTrack defaultGates 400 baseTrack).position_uncertainty_m =
      min 5000 (baseTrack.position_uncertainty_m * 1.5) := by
  have h : baseTrack.status ≠ TrackStatus.dropped := by decide
  exact (age_tracks_lifecycle 400 baseTrack h).1
    (by norm_num [defaultGates, baseTrack])
    (by norm_num [defaultGates, baseTrack]) (by decide)

/-- C9 counterexample: for the fishing class (base dark rate 3/20 = 0.15)
and `dark_pct = 10`, the threshold the code compares the uniform draw
against is `0.15 + 0.10 = 0.25`, not `max(0.15, 0.10) = 0.15`; the draw
`0.2` starts the vessel dark under the code but would not under the
claimed threshold. -/
theorem init_fleet_dark_threshold_cex :
    (⟨"fishing", 3/25, 20, 50, 2, 8, 3/20⟩ : VesselTypeSpec) ∈ VESSEL_TYPES ∧
    codeInitialDarkThreshold (3/20) 10 ≠ specInitialDarkThreshold (3/20) 10 ∧
    initFleetIsDark (1/5) (3/20) 10 = true ∧
    ¬((1/5 : ℚ) < specInitialDarkThreshold (3/20) 10) := by
  refine ⟨?_, ?_, ?_, ?_⟩
  · unfold VESSEL_TYPES
    exact List.mem_cons_of_mem _ (List.mem_cons_of_mem _
      (List.mem_cons_of_mem _ (List.mem_cons_self _ _)))
  · unfold codeInitialDarkThreshold specInitialDarkThreshold
    norm_num
  · unfold initFleetIsDark codeInitialDarkThreshold
    norm_num
  · unfold specInitialDarkThreshold
    norm_num

/-- C9 (amended): at fleet initialization a vessel starts dark — i.e.
`ais_enabled = false` — exactly when the uniform draw is below the sum
`base_dark_prob + dark_pct/100` (not the maximum); since every base rate in
`VESSEL_TYPES` is non-negative, the code's threshold dominates the
specified `max(base, dark_pct/100)` whenever `dark_pct ≥ 0`. -/
theorem init_fleet_dark_probability (vt : VesselTypeSpec)
    (hvt : vt ∈ VESSEL_TYPES) (darkPct draw : ℚ) (hpct : 0 ≤ darkPct) :
    (initFleetAisEnabled draw vt.base_dark_prob darkPct = false ↔
      draw < vt.base_dark_prob + darkPct / 100) ∧
    specInitialDarkThreshold vt.base_dark_prob darkPct ≤
      codeInitialDarkThreshold vt.base_dark_prob darkPct := by
  constructor
  · unfold initFleetAisEnabled initFleetIsDark codeInitialDarkThreshold
    simp
  · have hbase : 0 ≤ vt.base_dark_prob := by
      fin_cases hvt <;> norm_num
    unfold specInitialDarkThreshold codeInitialDarkThreshold
    exact max_le (le_add_of_nonneg_right (by positivity))
      (le_add_of_nonneg_left hbase)

/-- Witness for C9: the cargo class with `dark_pct = 10` and draw `0.01`. -/
theorem init_fleet_dark_probability_witness :
    (⟨"cargo", 3/10, 100, 200, 10, 16, 1/50⟩ : VesselTypeSpec) ∈
      VESSEL_TYPES ∧
    (0 : ℚ) ≤ 10 ∧
    (initFleetAisEnabled (1/100)
        (⟨"cargo", 3/10, 100, 200, 10, 16, 1/50⟩ : VesselTypeSpec).base_dark_prob
        10 = false ↔
      (1/100 : ℚ) <
        (⟨"cargo", 3/10, 100, 200, 10, 16, 1/50⟩ :
          VesselTypeSpec).base_dark_prob + 10 / 100) := by
  have hm : (⟨"cargo", 3/10, 100, 200, 10, 16, 1/50⟩ : VesselTypeSpec) ∈
      VESSEL_TYPES := by
    unfold VESSEL_TYPES
    exact List.mem_cons_self _ _
  exact ⟨hm, by norm_num,
    (init_fleet_dark_probability _ hm 10 (1/100) (by norm_num)).1⟩

/-- The published mmsi of one AIS position report. -/
theorem mkAisPosition_mmsi (ship : Ship) (a b : ℝ) (now : ℚ) :
    (mkAisPosition ship a b now).mmsi = some ship.mmsi := rfl

/-- Every position that `_process_unified` publishes comes from a ship of
the snapshot whose AIS transponder is enabled. -/
theorem processUnified_mem_enabled (now : ℚ) (td ld : ℕ → ℚ)
    (el eo : ℕ → ℝ) :
    ∀ (i : ℕ) (ships : List Ship) (p : MaritimePosition),
      p ∈ processUnified now td ld el eo i ships →
      ∃ s ∈ ships, s.ais_enabled = true ∧ p.mmsi = some s.mmsi := by
  intro i ships
  induction ships generalizing i with
  | nil => intro p hp; simp [processUnified] at hp
  | cons ship rest ih =>
    intro p hp
    unfold processUnified at hp
    split at hp
    · rename_i hdark
      obtain ⟨s, hs, he, hm⟩ := ih _ p hp
      exact ⟨s, List.mem_cons_of_mem _ hs, he, hm⟩
    · rename_i hlit
      split at hp
      · obtain ⟨s, hs, he, hm⟩ := ih _ p hp
        exact ⟨s, List.mem_cons_of_mem _ hs, he, hm⟩
      · split at hp
        · obtain ⟨s, hs, he, hm⟩ := ih _ p hp
          exact ⟨s, List.mem_cons_of_mem _ hs, he, hm⟩
        · rcases List.mem_cons.mp hp with hhead | htail
          · refine ⟨ship, List.mem_cons_self _ _, ?_, ?_⟩
            · simpa using hlit
            · rw [hhead, mkAisPosition_mmsi]
          · obtain ⟨s, hs, he, hm⟩ := ih _ p htail
            exact ⟨s, List.mem_cons_of_mem _ hs, he, hm⟩

/-- C2: under a fleet snapshot with pairwise-distinct mmsis, every message
the AIS ingester's unified cycle publishes to `ais:positions` originates
from a ship with `ais_enabled = true`, and no published message carries the
mmsi of a ship whose transponder is off — for every choice of the
transmission, packet-loss, and position-error draws. -/
theorem ais_ingester_dark_invariant (now : ℚ) (td ld : ℕ → ℚ)
    (el eo : ℕ → ℝ) (i : ℕ) (ships : List Ship) (p : MaritimePosition)
    (hp : p ∈ processUnified now td ld el eo i ships)
    (hnodup : (ships.map Ship.mmsi).Nodup) :
    (∃ s ∈ ships, s.ais_enabled = true ∧ p.mmsi = some s.mmsi) ∧
    ∀ v ∈ ships, v.ais_enabled = false → p.mmsi ≠ some v.mmsi := by
  obtain ⟨s, hs, he, hm⟩ := processUnified_mem_enabled now td ld el eo i
    ships p hp
  refine ⟨⟨s, hs, he, hm⟩, fun v hv hvdark hcontra => ?_⟩
  have hmm : s.mmsi = v.mmsi := by
    rw [hm] at hcontra
    exact Option.some_injective _ hcontra
  have hsv : s = v :=
    List.inj_on_of_nodup_map hnodup hs hv hmm
  rw [hsv, hvdark] at he
  exact Bool.false_ne_true he

/-- Witness for C2: a two-ship fleet, one lit and one dark, with oracles
that transmit and deliver every packet. -/
theorem ais_ingester_dark_invariant_witness :
    (([litShip, darkShip].map Ship.mmsi).Nodup) ∧
    (∃ s ∈ [litShip, darkShip], s.ais_enabled = true ∧
      (mkAisPosition litShip 0 0 0).mmsi = some s.mmsi) ∧
    ∀ v ∈ [litShip, darkShip], v.ais_enabled = false →
      (mkAisPosition litShip 0 0 0).mmsi ≠ some v.mmsi := by
  have hnodup : (([litShip, darkShip].map Ship.mmsi).Nodup) := by
    simp [litShip, darkShip]
  have hout : processUnified 0 (fun _ => 0) (fun _ => 1) (fun _ => 0)
      (fun _ => 0) 0 [litShip, darkShip] = [mkAisPosition litShip 0 0 0] := by
    simp only [processUnified, litShip, darkShip]
    norm_num
  have hp : mkAisPosition litShip 0 0 0 ∈ processUnified 0 (fun _ => 0)
      (fun _ => 1) (fun _ => 0) (fun _ => 0) 0 [litShip, darkShip] := by
    rw [hout]
    exact List.mem_singleton.mpr rfl
  exact ⟨hnodup, ais_ingester_dark_invariant 0 (fun _ => 0) (fun _ => 1)
    (fun _ => 0) (fun _ => 0) 0 [litShip, darkShip]
    (mkAisPosition litShip 0 0 0) hp hnodup⟩

theorem updateVelocity_dark_fields (t : Track) (d : Det) :
    (updateVelocity t d).is_dark_ship = t.is_dark_ship ∧
    (updateVelocity t d).dark_ship_confidence = t.dark_ship_confidence ∧
    (updateVelocity t d).flagged_for_review = t.flagged_for_review ∧
    (updateVelocity t d).alert_reason = t.alert_reason ∧
    (updateVelocity t d).identity_source = t.identity_source ∧
    (updateVelocity t d).ais_last_seen = t.ais_last_seen := by
  obtain ⟨sp, co, vn, ve, h⟩ := updateVelocity_shape t d
  rw [h]
  exact ⟨rfl, rfl, rfl, rfl, rfl, rfl⟩

theorem updateContribution_dark_fields (t : Track) (d : Det)
    (st : SensorKind) (sid : String) (c : ℝ) (now : ℚ) :
    (updateContribution t d st sid c now).is_dark_ship = t.is_dark_ship ∧
    (updateContribution t d st sid c now).dark_ship_confidence =
      t.dark_ship_confidence ∧
    (updateContribution t d st sid c now).flagged_for_review =
      t.flagged_for_review ∧
    (updateContribution t d st sid c now).alert_reason = t.alert_reason ∧
    (updateContribution t d st sid c now).identity_source =
      t.identity_source ∧
    (updateContribution t d st sid c now).ais_last_seen = t.ais_last_seen := by
  obtain ⟨sc, cs, h⟩ := updateContribution_shape t d st sid c now
  rw [h]
  exact ⟨rfl, rfl, rfl, rfl, rfl, rfl⟩

theorem updateTrackStatus_dark_fields (g : CorrelationGates) (t : Track) :
    (updateTrackStatus g t).is_dark_ship = t.is_dark_ship ∧
    (updateTrackStatus g t).dark_ship_confidence = t.dark_ship_confidence ∧
    (updateTrackStatus g t).flagged_for_review = t.flagged_for_review ∧
    (updateTrackStatus g t).alert_reason = t.alert_reason ∧
    (updateTrackStatus g t).identity_source = t.identity_source ∧
    (updateTrackStatus g t).ais_last_seen = t.ais_last_seen := by
  obtain ⟨st, h⟩ := updateTrackStatus_shape g t
  rw [h]
  exact ⟨rfl, rfl, rfl, rfl, rfl, rfl⟩

theorem updateTrackQuality_dark_fields (t : Track) :
    (updateTrackQuality t).is_dark_ship = t.is_dark_ship ∧
    (updateTrackQuality t).dark_ship_confidence = t.dark_ship_confidence ∧
    (updateTrackQuality t).flagged_for_review = t.flagged_for_review ∧
    (updateTrackQuality t).alert_reason = t.alert_reason ∧
    (updateTrackQuality t).identity_source = t.identity_source ∧
    (updateTrackQuality t).ais_last_seen = t.ais_last_seen :=
  ⟨rfl, rfl, rfl, rfl, rfl, rfl⟩

/-- With a truthy mmsi, the AIS case of `_apply_detection_data` takes
authoritative identity and clears the whole dark state (track_manager.py
lines 169-181). -/
theorem applyDetectionData_ais_result (t : Track) (d : Det) (now : ℚ)
    (hm : truthyStr d.mmsi = true) :
    applyDetectionData t d .ais now =
      { t with
        identity_source := .ais
        mmsi := d.mmsi
        ship_name := d.ship_name
        vessel_type := d.ship_type
        ais_last_seen := some now
        is_dark_ship := false
        dark_ship_confidence := 0
        flagged_for_review := false
        alert_reason := none } := by
  unfold applyDetectionData
  rw [if_pos hm]

/-- C4 (amended): an AIS update that carries a (truthy) mmsi clears
`is_dark_ship`, `dark_ship_confidence`, `flagged_for_review`, and
`alert_reason`, and sets `identity_source = ais` with `ais_last_seen`
recorded at the update time — in particular a single such observation
arriving after the track was marked dark clears all dark state in the same
tick.  (The mmsi guard is required: see the counterexample.) -/
theorem ais_update_clears_dark_state (gates : CorrelationGates)
    (track : Track) (det : Det) (sid : String) (conf : ℝ) (now : ℚ)
    (hm : truthyStr det.mmsi = true) :
    (updateTrack gates track det .ais sid conf now).is_dark_ship = false ∧
    (updateTrack gates track det .ais sid conf now).dark_ship_confidence =
      0 ∧
    (updateTrack gates track det .ais sid conf now).flagged_for_review =
      false ∧
    (updateTrack gates track det .ais sid conf now).alert_reason = none ∧
    (updateTrack gates track det .ais sid conf now).identity_source =
      .ais ∧
    (updateTrack gates track det .ais sid conf now).ais_last_seen =
      some now := by
  unfold updateTrack
  dsimp only
  rw [applyDetectionData_ais_result _ _ _ hm]
  refine ⟨?_, ?_, ?_, ?_, ?_, ?_⟩ <;>
    simp only [(updateTrackQuality_dark_fields _).1,
      (updateTrackQuality_dark_fields _).2.1,
      (updateTrackQuality_dark_fields _).2.2.1,
      (updateTrackQuality_dark_fields _).2.2.2.1,
      (updateTrackQuality_dark_fields _).2.2.2.2.1,
      (updateTrackQuality_dark_fields _).2.2.2.2.2,
      (updateTrackStatus_dark_fields _ _).1,
      (updateTrackStatus_dark_fields _ _).2.1,
      (updateTrackStatus_dark_fields _ _).2.2.1,
      (updateTrackStatus_dark_fields _ _).2.2.2.1,
      (updateTrackStatus_dark_fields _ _).2.2.2.2.1,
      (updateTrackStatus_dark_fields _ _).2.2.2.2.2,
      (updateContribution_dark_fields _ _ _ _ _ _).1,
      (updateContribution_dark_fields _ _ _ _ _ _).2.1,
      (updateContribution_dark_fields _ _ _ _ _ _).2.2.1,
      (updateContribution_dark_fields _ _ _ _ _ _).2.2.2.1,
      (updateContribution_dark_fields _ _ _ _ _ _).2.2.2.2.1,
      (updateContribution_dark_fields _ _ _ _ _ _).2.2.2.2.2]

/-- Witness for C4: the dark-flagged base track cleared by the sample AIS
detection (mmsi "123456789"). -/
theorem ais_update_clears_dark_state_witness :
    truthyStr aisDet.mmsi = true ∧
    (updateTrack defaultGates
      { baseTrack with
        is_dark_ship := true
        dark_ship_confidence := 1/2
        flagged_for_review := true }
      aisDet .ais "AIS" 1 100).is_dark_ship = false := by
  have hm : truthyStr aisDet.mmsi = true := by decide
  exact ⟨hm,
    (ais_update_clears_dark_state defaultGates
      { baseTrack with
        is_dark_ship := true
        dark_ship_confidence := 1/2
        flagged_for_review := true }
      aisDet "AIS" 1 100 hm).1⟩

/-- C4 counterexample: an AIS observation without an mmsi (possible on the
wire, `parse_detection` just copies the optional field) does not clear the
dark state: `_apply_detection_data` only acts under
`if detection.get("mmsi")`.  The dark track stays dark through a full
`update_track` with sensor kind `ais`. -/
theorem ais_update_without_mmsi_cex :
    (updateTrack defaultGates
      { baseTrack with
        status := .confirmed
        is_dark_ship := true
        dark_ship_confidence := 1/2
        flagged_for_review := true
        alert_reason := some "Dark ship (multi-sensor)" }
      ({ latitude := 18.9, longitude := 72.8 } : Det)
      .ais "AIS" 1 100).is_dark_ship = true ∧
    (updateTrack defaultGates
      { baseTrack with
        status := .confirmed
        is_dark_ship := true
        dark_ship_confidence := 1/2
        flagged_for_review := true
        alert_reason := some "Dark ship (multi-sensor)" }
      ({ latitude := 18.9, longitude := 72.8 } : Det)
      .ais "AIS" 1 100).flagged_for_review = true ∧
    (updateTrack defaultGates
      { baseTrack with
        status := .confirmed
        is_dark_ship := true
        dark_ship_confidence := 1/2
        flagged_for_review := true
        alert_reason := some "Dark ship (multi-sensor)" }
      ({ latitude := 18.9, longitude := 72.8 } : Det)
      .ais "AIS" 1 100).identity_source = .unknown ∧
    (updateTrack defaultGates
      { baseTrack with
        status := .confirmed
        is_dark_ship := true
        dark_ship_confidence := 1/2
        flagged_for_review := true
        alert_reason := some "Dark ship (multi-sensor)" }
      ({ latitude := 18.9, longitude := 72.8 } : Det)
      .ais "AIS" 1 100).ais_last_seen = none := by
  exact ⟨rfl, rfl, rfl, rfl⟩

/-- The alert reason of the AIS-gap transition begins with `"AIS gap:"`. -/
theorem aisGapReason_starts_with (gap : ℚ) :
    ∃ rest, aisGapReason gap = "AIS gap:" ++ rest := by
  refine ⟨" " ++ toString (pyRound (gap / 60)) ++ " minutes", ?_⟩
  unfold aisGapReason
  have h : "AIS gap: " = "AIS gap:" ++ " " := rfl
  rw [h, String.append_assoc, String.append_assoc, String.append_assoc]

/-- C3 (amended): for a non-dropped track with `identity_source = ais` and
`ais_last_seen = t₀`, the dark-ship check at reference time `t` always sets
`ais_gap_seconds = t − t₀`; and when the gap exceeds the 900 s threshold,
some non-AIS sensor contribution was refreshed within the last 120 s, and
the track is **not already marked dark**, it sets `is_dark_ship`,
`dark_ship_confidence = min(1, gap/3600)`, `flagged_for_review`, and an
alert reason beginning `"AIS gap:"`.  (The not-already-dark guard is
required: see the counterexample.) -/
theorem check_dark_ships_ais_gap (now t0 : ℚ) (track : Track)
    (hs : track.status ≠ .dropped)
    (hid : track.identity_source = .ais)
    (hlast : track.ais_last_seen = some t0) :
    (checkDarkTrack defaultDarkConfig now track).ais_gap_seconds =
      some (now - t0) ∧
    (defaultDarkConfig.ais_gap_threshold_s < now - t0 →
      (∃ p ∈ track.sensor_contributions,
        p.1 ≠ SensorKind.ais ∧ now - p.2.last_update < 120) →
      track.is_dark_ship = false →
      (checkDarkTrack defaultDarkConfig now track).is_dark_ship = true ∧
      (checkDarkTrack defaultDarkConfig now track).dark_ship_confidence =
        min 1 ((now - t0) / 3600) ∧
      (checkDarkTrack defaultDarkConfig now track).flagged_for_review =
        true ∧
      ∃ rest, (checkDarkTrack defaultDarkConfig now track).alert_reason =
        some ("AIS gap:" ++ rest)) := by
  have hcond : track.identity_source = .ais ∧ track.ais_last_seen.isSome :=
    ⟨hid, by rw [hlast]; rfl⟩
  unfold checkDarkTrack
  rw [if_neg hs, if_pos hcond, hlast]
  dsimp only [Option.getD_some]
  constructor
  · split
    · split <;> rfl
    · rfl
  · intro hgap hrecent hnotdark
    rw [if_pos hgap]
    have hrec : hasRecentNonAisUpdates
        { track with ais_gap_seconds := some (now - t0) } now 120 = true := by
      unfold hasRecentNonAisUpdates
      rw [List.any_eq_true]
      obtain ⟨p, hp, h1, h2⟩ := hrecent
      exact ⟨p, hp, by simp [h1, h2]⟩
    have hnd : ¬({ track with ais_gap_seconds := some (now - t0)} :
        Track).is_dark_ship = true := by
      show ¬track.is_dark_ship = true
      rw [hnotdark]
      exact Bool.false_ne_true
    rw [if_pos ⟨hrec, hnd⟩]
    refine ⟨rfl, rfl, rfl, ?_⟩
    obtain ⟨rest, hr⟩ := aisGapReason_starts_with (now - t0)
    exact ⟨rest, congrArg some hr⟩

/-- Witness for C3: the AIS-identified base track, AIS last seen at
`t₀ = 0`, checked at `t = 2000` with a radar contribution refreshed at
`t = 1990`. -/
theorem check_dark_ships_ais_gap_witness :
    (checkDarkTrack defaultDarkConfig 2000 aisGapTrack).is_dark_ship =
      true ∧
    (checkDarkTrack defaultDarkConfig 2000 aisGapTrack).dark_ship_confidence
      = min 1 (((2000 : ℚ) - 0) / 3600) := by
  have h := check_dark_ships_ais_gap 2000 0 aisGapTrack (by decide) rfl rfl
  have h2 := h.2 (by norm_num [defaultDarkConfig])
    ⟨(.radar, radarContrib), by simp [aisGapTrack], by decide,
      by norm_num [radarContrib]⟩ rfl
  exact ⟨h2.1, h2.2.1⟩

/-- C3 counterexample: a track already marked dark (confidence 5/18 from an
earlier 1000 s gap) is re-checked at `t = 2000` with gap 2000 s and a fresh
radar contribution; the claim demands the confidence be re-set to
`min(1, 2000/3600) = 5/9`, but the `not track.is_dark_ship` guard leaves
the old confidence 5/18 in place. -/
theorem check_dark_already_dark_cex :
    (checkDarkTrack defaultDarkConfig 2000 alreadyDarkTrack).dark_ship_confidence
      = 5/18 ∧
    (5/18 : ℚ) ≠ min 1 (((2000 : ℚ) - 0) / 3600) := by
  constructor
  · unfold checkDarkTrack
    rw [if_neg (show alreadyDarkTrack.status ≠ .dropped from by decide),
      if_pos (show alreadyDarkTrack.identity_source = .ais ∧
        alreadyDarkTrack.ais_last_seen.isSome from ⟨rfl, rfl⟩)]
    rw [show alreadyDarkTrack.ais_last_seen = some 0 from rfl]
    dsimp only [Option.getD_some]
    rw [if_pos (show defaultDarkConfig.ais_gap_threshold_s <
        2000 - (0 : ℚ) from by norm_num [defaultDarkConfig])]
    rw [if_neg (fun hc => hc.2 rfl)]
    rfl
  · rw [min_eq_right (by norm_num : ((2000 : ℚ) - 0) / 3600 ≤ 1)]
    norm_num

/-- C10 (amended): `_safe_float` maps a parsed `0.0` to `None`, so a
kinematic field whose wire value is `"0"` is treated as absent: it never
overwrites the track's fused speed, course, or velocity vector (the
velocity update needs both fields), and the zeroed field contributes no
kinematic-consistency penalty — but the *other* kinematic field, when
present and non-zero, still can (see the counterexample). -/
theorem safe_float_zero_drops_kinematics (gates : CorrelationGates)
    (raw : RawMsg) (sk : SensorKind) (tr : Track)
    (hsk : sk = .ais ∨ sk = .radar) :
    safeFloat (some 0) = none ∧
    (raw.course = some 0 →
      (parseDetection sk raw).course = none ∧
      updateVelocity tr (parseDetection sk raw) = tr ∧
      coursePenalty gates tr (parseDetection sk raw) = 0) ∧
    (raw.speed_knots = some 0 →
      (parseDetection sk raw).speed_knots = none ∧
      updateVelocity tr (parseDetection sk raw) = tr ∧
      speedPenalty gates tr (parseDetection sk raw) = 0) ∧
    (raw.course = some 0 → raw.speed_knots = some 0 →
      kinematicConsistency gates tr (parseDetection sk raw) = 0) := by
  have hsf : safeFloat (some 0) = none := by simp [safeFloat]
  have hcourse : raw.course = some 0 → (parseDetection sk raw).course =
      none := by
    intro hc
    rcases hsk with h | h <;> subst h <;> simp [parseDetection, hc, hsf]
  have hspeed : raw.speed_knots = some 0 →
      (parseDetection sk raw).speed_knots = none := by
    intro hc
    rcases hsk with h | h <;> subst h <;> simp [parseDetection, hc, hsf]
  have hvelC : (parseDetection sk raw).course = none →
      updateVelocity tr (parseDetection sk raw) = tr := by
    intro hc
    rcases h1 : (parseDetection sk raw).speed_knots with _ | sp <;>
      (unfold updateVelocity; rw [h1, hc])
  have hvelS : (parseDetection sk raw).speed_knots = none →
      updateVelocity tr (parseDetection sk raw) = tr := by
    intro hc
    rcases h1 : (parseDetection sk raw).course with _ | co <;>
      (unfold updateVelocity; rw [hc])
  refine ⟨hsf, fun hc => ?_, fun hc => ?_, fun hc hs => ?_⟩
  · have h0 := hcourse hc
    refine ⟨h0, hvelC h0, ?_⟩
    unfold coursePenalty
    rw [h0, if_neg (fun hh => Bool.false_ne_true hh.2)]
  · have h0 := hspeed hc
    refine ⟨h0, hvelS h0, ?_⟩
    unfold speedPenalty
    rw [h0, if_neg (fun hh => Bool.false_ne_true hh.2)]
  · have h0 := hcourse hc
    have h1 := hspeed hs
    unfold kinematicConsistency
    unfold speedPenalty coursePenalty
    rw [h0, h1, if_neg (fun hh => Bool.false_ne_true hh.2),
      if_neg (fun hh => Bool.false_ne_true hh.2)]
    norm_num

/-- Witness for C10: the AIS wire message with `course = "0"`,
`speed = "7"` against the kinematic track. -/
theorem safe_float_zero_drops_kinematics_witness :
    (SensorKind.ais = SensorKind.ais ∨ SensorKind.ais = SensorKind.radar) ∧
    rawZeroCourse.course = some 0 ∧
    ((parseDetection .ais rawZeroCourse).course = none ∧
      updateVelocity kinTrack (parseDetection .ais rawZeroCourse) =
        kinTrack ∧
      coursePenalty defaultGates kinTrack
        (parseDetection .ais rawZeroCourse) = 0) := by
  have hsk : SensorKind.ais = SensorKind.ais ∨
      SensorKind.ais = SensorKind.radar := Or.inl rfl
  have hc : rawZeroCourse.course = some 0 := rfl
  exact ⟨hsk, hc,
    (safe_float_zero_drops_kinematics defaultGates rawZeroCourse .ais
      kinTrack hsk).2.1 hc⟩

/-- C10 counterexample: the same observation (course `"0"`, speed `"7"`)
still contributes a non-zero kinematic-consistency penalty through its
speed field — `|10 − 7|/15 = 1/5` against a 10 kn track — so the claim
that such an observation "contributes no kinematic-consistency penalty" is
false. -/
theorem kinematic_penalty_zero_course_cex :
    (parseDetection .ais rawZeroCourse).course = none ∧
    kinematicConsistency defaultGates kinTrack
      (parseDetection .ais rawZeroCourse) = 1/5 ∧
    (1/5 : ℚ) ≠ 0 := by
  refine ⟨by simp [parseDetection, rawZeroCourse, safeFloat], ?_, by norm_num⟩
  have hdet : (parseDetection .ais rawZeroCourse).speed_knots = some 7 ∧
      (parseDetection .ais rawZeroCourse).course = none := by
    constructor <;> simp [parseDetection, rawZeroCourse, safeFloat]
  unfold kinematicConsistency speedPenalty coursePenalty
  rw [hdet.1, hdet.2]
  rw [if_pos ⟨by decide, by decide⟩, if_neg (fun hh => Bool.false_ne_true hh.2)]
  show |(kinTrack.speed_knots.getD 0) - (some (7:ℚ)).getD 0| /
      defaultGates.max_speed_change_knots + 0 = 1/5
  norm_num [kinTrack, baseTrack, defaultGates]

/-! ## Association-list lemmas -/

theorem dget_cons {α : Type} (k' : String) (v' : α)
    (rest : List (String × α)) (key : String) :
    dget ((k', v') :: rest) key =
      if k' = key then some v' else dget rest key := rfl

theorem dget_mem {α : Type} {d : List (String × α)} {k : String} {v : α}
    (h : dget d k = some v) : (k, v) ∈ d := by
  induction d with
  | nil => simp [dget] at h
  | cons p rest ih =>
    obtain ⟨k', v'⟩ := p
    unfold dget at h
    by_cases hk : k' = k
    · rw [if_pos hk] at h
      injection h with hv
      subst hk hv
      exact List.mem_cons_self _ _
    · rw [if_neg hk] at h
      exact List.mem_cons_of_mem _ (ih h)

theorem dget_of_dmem_false {α : Type} {d : List (String × α)} {k : String}
    (h : dmem d k = false) : dget d k = none := by
  induction d with
  | nil => rfl
  | cons p rest ih =>
    obtain ⟨k', v'⟩ := p
    unfold dmem at h
    simp only [List.map_cons, List.contains_cons, Bool.or_eq_false_iff] at h
    rw [dget_cons, if_neg (fun he : k' = k => by simp [he] at h)]
    exact ih (by unfold dmem; exact h.2)

theorem dget_of_dmem_true {α : Type} {d : List (String × α)} {k : String}
    (h : dmem d k = true) : ∃ v, dget d k = some v := by
  induction d with
  | nil => simp [dmem] at h
  | cons p rest ih =>
    obtain ⟨k', v'⟩ := p
    unfold dget
    by_cases hk : k' = k
    · exact ⟨v', if_pos hk⟩
    · rw [if_neg hk]
      refine ih ?_
      unfold dmem at h ⊢
      simp only [List.map_cons, List.contains_cons, Bool.or_eq_true] at h
      rcases h with h | h
      · have he : k = k' := by simpa using h
        exact absurd he.symm hk
      · exact h

theorem dget_append_of_some {α : Type} {d e : List (String × α)}
    {k : String} {v : α} (h : dget d k = some v) :
    dget (d ++ e) k = some v := by
  induction d with
  | nil => simp [dget] at h
  | cons p rest ih =>
    obtain ⟨k', v'⟩ := p
    rw [List.cons_append]
    unfold dget at h ⊢
    by_cases hk : k' = k
    · rwa [if_pos hk] at h ⊢
    · rw [if_neg hk] at h ⊢
      exact ih h

theorem dget_append_of_none {α : Type} {d e : List (String × α)}
    {k : String} (h : dget d k = none) : dget (d ++ e) k = dget e k := by
  induction d with
  | nil => rfl
  | cons p rest ih =>
    obtain ⟨k', v'⟩ := p
    rw [List.cons_append, dget_cons]
    rw [dget_cons] at h
    by_cases hk : k' = k
    · rw [if_pos hk] at h
      exact absurd h (by simp)
    · rw [if_neg hk] at h ⊢
      exact ih h

theorem mem_dset {α : Type} {d : List (String × α)} {k : String} {v : α} :
    ∀ q ∈ dset d k v, q ∈ d ∨ q = (k, v) := by
  induction d with
  | nil =>
    intro q hq
    unfold dset at hq
    exact Or.inr (List.mem_singleton.mp hq)
  | cons p rest ih =>
    intro q hq
    obtain ⟨k', v'⟩ := p
    unfold dset at hq
    by_cases hk : k' = k
    · rw [if_pos hk] at hq
      rcases List.mem_cons.mp hq with h | h
      · subst hk
        exact Or.inr (by rw [h])
      · exact Or.inl (List.mem_cons_of_mem _ h)
    · rw [if_neg hk] at hq
      rcases List.mem_cons.mp hq with h | h
      · exact Or.inl (h ▸ List.mem_cons_self _ _)
      · rcases ih q h with h' | h'
        · exact Or.inl (List.mem_cons_of_mem _ h')
        · exact Or.inr h'

theorem dget_dset_ne {α : Type} {d : List (String × α)} {k key : String}
    {v : α} (h : k ≠ key) : dget (dset d k v) key = dget d key := by
  induction d with
  | nil =>
    unfold dset dget
    rw [if_neg h]
    rfl
  | cons p rest ih =>
    obtain ⟨k', v'⟩ := p
    unfold dset
    by_cases hk : k' = k
    · rw [if_pos hk]
      subst hk
      unfold dget
      rw [if_neg h, if_neg h]
    · rw [if_neg hk]
      unfold dget
      by_cases hkey : k' = key
      · rw [if_pos hkey, if_pos hkey]
      · rw [if_neg hkey, if_neg hkey]
        exact ih

theorem mem_keys_dset {α : Type} {d : List (String × α)} {k : String}
    {v : α} :
    ∀ k' ∈ (dset d k v).map Prod.fst, k' ∈ d.map Prod.fst ∨ k' = k := by
  intro k' h
  obtain ⟨q, hq, hfst⟩ := List.mem_map.mp h
  rcases mem_dset q hq with h' | h'
  · exact Or.inl (hfst ▸ List.mem_map_of_mem _ h')
  · subst h'
    exact Or.inr hfst.symm

theorem keys_nodup_dset {α : Type} {d : List (String × α)} {k : String}
    {v : α} (h : (d.map Prod.fst).Nodup) :
    ((dset d k v).map Prod.fst).Nodup := by
  induction d with
  | nil => simp [dset]
  | cons p rest ih =>
    obtain ⟨k', v'⟩ := p
    unfold dset
    by_cases hk : k' = k
    · rw [if_pos hk]
      exact h
    · rw [if_neg hk]
      simp only [List.map_cons, List.nodup_cons] at h ⊢
      refine ⟨fun hmem => ?_, ih h.2⟩
      rcases mem_keys_dset _ hmem with h' | h'
      · exact h.1 h'
      · exact hk h'

theorem dget_dmodify_ne {α : Type} {d : List (String × α)} {k key : String}
    {f : α → α} (h : k ≠ key) : dget (dmodify d k f) key = dget d key := by
  induction d with
  | nil => rfl
  | cons p rest ih =>
    obtain ⟨k', v'⟩ := p
    unfold dmodify
    by_cases hk : k' = k
    · rw [if_pos hk]
      unfold dget
      subst hk
      rw [if_neg h, if_neg h]
    · rw [if_neg hk]
      unfold dget
      by_cases hkey : k' = key
      · rw [if_pos hkey, if_pos hkey]
      · rw [if_neg hkey, if_neg hkey]
        exact ih

theorem keys_dmodify {α : Type} (d : List (String × α)) (k : String)
    (f : α → α) : (dmodify d k f).map Prod.fst = d.map Prod.fst := by
  induction d with
  | nil => rfl
  | cons p rest ih =>
    obtain ⟨k', v'⟩ := p
    unfold dmodify
    by_cases hk : k' = k
    · rw [if_pos hk]
      simp
    · rw [if_neg hk]
      simp [ih]

theorem dget_map_snd {α : Type} (f : α → α) (d : List (String × α))
    (key : String) :
    dget (d.map fun p => (p.1, f p.2)) key = (dget d key).map f := by
  induction d with
  | nil => rfl
  | cons p rest ih =>
    obtain ⟨k', v'⟩ := p
    simp only [List.map_cons]
    unfold dget
    by_cases hk : k' = key
    · rw [if_pos hk, if_pos hk]
      rfl
    · rw [if_neg hk, if_neg hk]
      exact ih

theorem keys_map_snd {α : Type} (f : α → α) (d : List (String × α)) :
    (d.map fun p => (p.1, f p.2)).map Prod.fst = d.map Prod.fst := by
  rw [List.map_map]
  rfl

/-- With unique keys, a key determines its value. -/
theorem nodup_keys_eq {α : Type} {d : List (String × α)} {k : String}
    {a b : α} (hnd : (d.map Prod.fst).Nodup) (ha : (k, a) ∈ d)
    (hb : (k, b) ∈ d) : a = b := by
  have h := List.inj_on_of_nodup_map hnd ha hb rfl
  injection h

/-! ## `rappend` lemmas -/

theorem dget_map_modify (rs : CorrelationResults) (k : String)
    (a : Assignment) :
    dget (rs.map fun p => if p.1 = k then (p.1, p.2 ++ [a]) else p) k =
      (dget rs k).map (· ++ [a]) := by
  induction rs with
  | nil => rfl
  | cons p rest ih =>
    obtain ⟨k', l⟩ := p
    simp only [List.map_cons]
    by_cases hk : k' = k
    · rw [if_pos hk, dget_cons, dget_cons, if_pos hk, if_pos hk]
      rfl
    · rw [if_neg hk, dget_cons, dget_cons, if_neg hk, if_neg hk]
      exact ih

theorem dget_map_modify_ne (rs : CorrelationResults) (k key : String)
    (a : Assignment) (h : k ≠ key) :
    dget (rs.map fun p => if p.1 = k then (p.1, p.2 ++ [a]) else p) key =
      dget rs key := by
  induction rs with
  | nil => rfl
  | cons p rest ih =>
    obtain ⟨k', l⟩ := p
    simp only [List.map_cons]
    by_cases hk : k' = k
    · rw [if_pos hk, dget_cons, dget_cons]
      have hkey : ¬k' = key := fun he => h (hk ▸ he)
      rw [if_neg hkey, if_neg hkey]
      exact ih
    · rw [if_neg hk, dget_cons, dget_cons]
      by_cases hkey : k' = key
      · rw [if_pos hkey, if_pos hkey]
      · rw [if_neg hkey, if_neg hkey]
        exact ih

/-- Membership preservation: an assignment already recorded under any key
survives any further `rappend`. -/
theorem rappend_preserves {rs : CorrelationResults} {tid : String}
    {l : List Assignment} {x : Assignment} (k : String) (a : Assignment)
    (hget : dget rs tid = some l) (hx : x ∈ l) :
    ∃ l', dget (rappend rs k a) tid = some l' ∧ x ∈ l' := by
  unfold rappend
  by_cases hm : dmem rs k
  · rw [if_pos hm]
    by_cases hk : k = tid
    · subst hk
      rw [dget_map_modify, hget]
      exact ⟨l ++ [a], rfl, List.mem_append_left _ hx⟩
    · rw [dget_map_modify_ne _ _ _ _ hk, hget]
      exact ⟨l, rfl, hx⟩
  · rw [if_neg hm]
    exact ⟨l, dget_append_of_some hget, hx⟩

/-- Insertion: after `rappend rs k a`, the key `k` holds a list
containing `a`. -/
theorem rappend_inserts (rs : CorrelationResults) (k : String)
    (a : Assignment) :
    ∃ l', dget (rappend rs k a) k = some l' ∧ a ∈ l' := by
  unfold rappend
  by_cases hm : dmem rs k
  · rw [if_pos hm]
    obtain ⟨l, hl⟩ := dget_of_dmem_true hm
    rw [dget_map_modify, hl]
    exact ⟨l ++ [a], rfl, List.mem_append_right _ (List.mem_singleton.mpr rfl)⟩
  · rw [if_neg hm]
    rw [dget_append_of_none (dget_of_dmem_false (by simpa using hm))]
    exact ⟨[a], by rw [dget_cons, if_pos rfl], List.mem_singleton.mpr rfl⟩

theorem mem_keys_rappend {rs : CorrelationResults} {k : String}
    {a : Assignment} :
    ∀ k' ∈ (rappend rs k a).map Prod.fst,
      k' ∈ rs.map Prod.fst ∨ k' = k := by
  intro k' h
  unfold rappend at h
  by_cases hm : dmem rs k
  · rw [if_pos hm] at h
    rw [List.map_map] at h
    left
    obtain ⟨p, hp, hfst⟩ := List.mem_map.mp h
    refine hfst ▸ ?_
    have : (Prod.fst ∘ fun p : String × List Assignment =>
        if p.1 = k then (p.1, p.2 ++ [a]) else p) p = p.1 := by
      by_cases hpk : p.1 = k <;> simp [Function.comp, hpk]
    rw [this]
    exact List.mem_map_of_mem _ hp
  · rw [if_neg hm] at h
    rw [List.map_append] at h
    rcases List.mem_append.mp h with h' | h'
    · exact Or.inl h'
    · simp only [List.map_cons, List.map_nil] at h'
      exact Or.inr (List.mem_singleton.mp h')

/-! ## mmsi map soundness -/

theorem mmsiToTrack_aux (l : List (String × Track)) :
    ∀ (m0 : List (String × String)) (q : String × String),
      q ∈ l.foldl
        (fun m p =>
          if truthyStr p.2.mmsi then dset m (p.2.mmsi.getD "") p.1 else m)
        m0 →
      q ∈ m0 ∨ ∃ p ∈ l, p.2.mmsi = some q.1 ∧ q.2 = p.1 := by
  induction l with
  | nil => exact fun m0 q h => Or.inl h
  | cons p rest ih =>
    intro m0 q h
    rw [List.foldl_cons] at h
    rcases ih _ q h with h1 | h2
    · by_cases ht : truthyStr p.2.mmsi
      · rw [if_pos ht] at h1
        rcases mem_dset q h1 with hq | hq
        · exact Or.inl hq
        · right
          refine ⟨p, List.mem_cons_self _ _, ?_, ?_⟩
          · rcases hmm : p.2.mmsi with _ | s
            · rw [hmm] at ht
              exact absurd ht (by simp [truthyStr])
            · rw [hq]
              rw [hmm]
              rfl
          · rw [hq]
      · rw [if_neg ht] at h1
        exact Or.inl h1
    · obtain ⟨p', hp', hm, hq⟩ := h2
      exact Or.inr ⟨p', List.mem_cons_of_mem _ hp', hm, hq⟩

/-- A phase-1 map hit names a track of the dict that carries that mmsi. -/
theorem mmsiToTrack_sound {tracks : List (String × Track)} {s tid : String}
    (h : dget (mmsiToTrack tracks) s = some tid) :
    ∃ tr, (tid, tr) ∈ tracks ∧ tr.mmsi = some s := by
  have hmem := dget_mem h
  rcases mmsiToTrack_aux tracks [] (s, tid) hmem with h1 | h2
  · simp at h1
  · obtain ⟨p, hp, hm, hq⟩ := h2
    obtain ⟨p1, p2⟩ := p
    simp only at hm hq
    subst hq
    exact ⟨p2, hp, hm⟩

/-! ## Phase-1 lemmas -/

theorem phase1Step_preserves (m : List (String × String))
    (acc : CorrelationResults × List (Det × SensorKind))
    (ds : Det × SensorKind) {tid : String} {l : List Assignment}
    {x : Assignment} (hget : dget acc.1 tid = some l) (hx : x ∈ l) :
    ∃ l', dget (phase1Step m acc ds).1 tid = some l' ∧ x ∈ l' := by
  unfold phase1Step
  (repeat' split) <;>
    first
      | exact ⟨l, hget, hx⟩
      | exact rappend_preserves _ _ hget hx

theorem phase1_fold_preserves (m : List (String × String))
    (l : List (Det × SensorKind)) :
    ∀ (acc : CorrelationResults × List (Det × SensorKind)) (tid : String)
      (lst : List Assignment) (x : Assignment),
      dget acc.1 tid = some lst → x ∈ lst →
      ∃ l', dget (l.foldl (phase1Step m) acc).1 tid = some l' ∧ x ∈ l' := by
  induction l with
  | nil => exact fun acc tid lst x h hx => ⟨lst, h, hx⟩
  | cons ds rest ih =>
    intro acc tid lst x h hx
    rw [List.foldl_cons]
    obtain ⟨l', h', hx'⟩ := phase1Step_preserves m acc ds h hx
    exact ih _ tid l' x h' hx'

theorem phase1Step_assigns (m : List (String × String))
    (acc : CorrelationResults × List (Det × SensorKind)) (det : Det)
    (sk : SensorKind) {s tid : String} (hm : det.mmsi = some s)
    (hs : s ≠ "") (hg : dget m s = some tid) :
    ∃ l', dget (phase1Step m acc (det, sk)).1 tid = some l' ∧
      (det, sk, (1 : ℝ)) ∈ l' := by
  unfold phase1Step
  have hm' : ((det, sk).1).mmsi = some s := hm
  rw [hm']
  dsimp only
  rw [if_pos hs, hg]
  exact rappend_inserts _ _ _

theorem phase1_assigns (dets : List (Det × SensorKind))
    (m : List (String × String)) (init : CorrelationResults) (det : Det)
    (sk : SensorKind) {s tid : String} (hmem : (det, sk) ∈ dets)
    (hm : det.mmsi = some s) (hs : s ≠ "") (hg : dget m s = some tid) :
    ∃ l', dget (phase1 dets m init).1 tid = some l' ∧
      (det, sk, (1 : ℝ)) ∈ l' := by
  unfold phase1
  suffices h : ∀ (l : List (Det × SensorKind))
      (acc : CorrelationResults × List (Det × SensorKind)),
      (det, sk) ∈ l →
      ∃ l', dget (l.foldl (phase1Step m) acc).1 tid = some l' ∧
        (det, sk, (1 : ℝ)) ∈ l' from h dets (init, []) hmem
  intro l
  induction l with
  | nil => intro acc h; simp at h
  | cons ds rest ih =>
    intro acc h
    rw [List.foldl_cons]
    rcases List.mem_cons.mp h with he | ht
    · obtain ⟨l', h', hx'⟩ := he ▸ phase1Step_assigns m acc det sk hm hs hg
      exact phase1_fold_preserves m rest _ tid l' _ h' hx'
    · exact ih _ ht

theorem phase1Step_snd (m : List (String × String))
    (acc : CorrelationResults × List (Det × SensorKind))
    (ds : Det × SensorKind) :
    (phase1Step m acc ds).2 =
      if phase1Matched m ds then acc.2 else acc.2 ++ [ds] := by
  unfold phase1Step phase1Matched
  rcases hm : ds.1.mmsi with _ | s
  · dsimp only
    simp
  · dsimp only
    by_cases hs : s = ""
    · rw [if_neg (fun hne => hne hs)]
      simp [hs]
    · rw [if_pos hs]
      rcases hg : dget m s with _ | tid
      · simp [hg, hs]
      · simp [hg, hs]

theorem phase1_fold_remaining (m : List (String × String))
    (l : List (Det × SensorKind)) :
    ∀ (acc : CorrelationResults × List (Det × SensorKind)),
      (l.foldl (phase1Step m) acc).2 =
        acc.2 ++ l.filter (fun ds => !phase1Matched m ds) := by
  induction l with
  | nil => intro acc; simp
  | cons ds rest ih =>
    intro acc
    rw [List.foldl_cons, ih, List.filter_cons]
    by_cases hmat : phase1Matched m ds = true
    · have hstep : (phase1Step m acc ds).2 = acc.2 := by
        rw [phase1Step_snd, if_pos hmat]
      rw [hstep]
      simp [hmat]
    · have hstep : (phase1Step m acc ds).2 = acc.2 ++ [ds] := by
        rw [phase1Step_snd, if_neg hmat]
      rw [hstep]
      simp only [Bool.not_eq_true] at hmat
      simp [hmat, List.append_assoc]

/-- The `remaining_detections` of phase 1 are exactly the unmatched
detections, in order. -/
theorem phase1_remaining (dets : List (Det × SensorKind))
    (m : List (String × String)) (init : CorrelationResults) :
    (phase1 dets m init).2 =
      dets.filter (fun ds => !phase1Matched m ds) := by
  unfold phase1
  rw [phase1_fold_remaining]
  rfl

/-- A detection consumed by phase 1 never reaches
`remaining_detections`. -/
theorem phase1_not_remaining (dets : List (Det × SensorKind))
    (m : List (String × String)) (init : CorrelationResults) (det : Det)
    (sk : SensorKind) {s tid : String} (hm : det.mmsi = some s)
    (hs : s ≠ "") (hg : dget m s = some tid) :
    (det, sk) ∉ (phase1 dets m init).2 := by
  rw [phase1_remaining]
  intro hmem
  have h := List.of_mem_filter hmem
  have hmat : phase1Matched m (det, sk) = true := by
    unfold phase1Matched
    have hm' : ((det, sk).1).mmsi = some s := hm
    rw [hm']
    dsimp only
    rw [hg]
    simp [hs]
  rw [hmat] at h
  simp at h

/-! ## Phase-2 preservation lemmas -/

theorem foldl_rappend_new_preserves (l : List (Det × SensorKind)) :
    ∀ (rs : CorrelationResults) (tid : String) (lst : List Assignment)
      (x : Assignment), dget rs tid = some lst → x ∈ lst →
      ∃ l', dget (l.foldl
        (fun rs ds => rappend rs "NEW" (ds.1, ds.2, 0)) rs) tid =
          some l' ∧ x ∈ l' := by
  induction l with
  | nil => exact fun rs tid lst x h hx => ⟨lst, h, hx⟩
  | cons ds rest ih =>
    intro rs tid lst x h hx
    rw [List.foldl_cons]
    obtain ⟨l', h', hx'⟩ := rappend_preserves "NEW" (ds.1, ds.2, 0) h hx
    exact ih _ tid l' x h' hx'

theorem phase2Build_preserves (gates : CorrelationGates)
    (remaining : List (Det × SensorKind))
    (trackList : List (String × Track)) (t : ℚ) (pairs : List (ℕ × ℕ)) :
    ∀ (rs : CorrelationResults) (tid : String) (lst : List Assignment)
      (x : Assignment), dget rs tid = some lst → x ∈ lst →
      ∃ l', dget (phase2Build gates remaining trackList t pairs rs) tid =
        some l' ∧ x ∈ l' := by
  unfold phase2Build
  induction pairs with
  | nil => exact fun rs tid lst x h hx => ⟨lst, h, hx⟩
  | cons ij rest ih =>
    intro rs tid lst x h hx
    rw [List.foldl_cons]
    rcases hg : remaining.get? ij.1 with _ | ds
    · exact ih _ tid lst x h hx
    · by_cases hj : ij.2 < trackList.length
      · obtain ⟨l', h', hx'⟩ := rappend_preserves
          (trackList.get ⟨ij.2, hj⟩).1
          (ds.1, ds.2,
            1 - costMatrix gates remaining trackList t ij.1 ij.2) h hx
        refine ih _ tid l' x ?_ hx'
        dsimp only
        rw [dif_pos hj]
        exact h'
      · obtain ⟨l', h', hx'⟩ := rappend_preserves "NEW" (ds.1, ds.2, 0) h hx
        refine ih _ tid l' x ?_ hx'
        dsimp only
        rw [dif_neg hj]
        exact h'

/-- C1: in `batch_correlate`, every detection carrying a truthy mmsi that
the phase-1 map binds to a track is assigned to that track — a track of
the current map that carries exactly that mmsi — with confidence 1.0, and
it is removed from the phase-2 spatial assignment
(`remaining_detections`); the track positions, velocities, the timestamp
and the solver are universally quantified, so the conclusion holds
regardless of the haversine distance between the observation and the
track's predicted position. -/
theorem batch_correlate_identity_pinning (gates : CorrelationGates)
    (solver : Solver) (dets : List (Det × SensorKind))
    (tracks : List (String × Track)) (t : ℚ) (det : Det) (sk : SensorKind)
    (s tid : String) (hmem : (det, sk) ∈ dets) (hm : det.mmsi = some s)
    (hs : s ≠ "") (hg : dget (mmsiToTrack tracks) s = some tid) :
    (∃ tr, (tid, tr) ∈ tracks ∧ tr.mmsi = some s) ∧
    (∃ l, dget (batchCorrelate gates solver dets tracks t) tid = some l ∧
      (det, sk, (1 : ℝ)) ∈ l) ∧
    (det, sk) ∉ (phase1 dets (mmsiToTrack tracks) [("NEW", [])]).2 := by
  refine ⟨mmsiToTrack_sound hg, ?_,
    phase1_not_remaining dets (mmsiToTrack tracks) [("NEW", [])] det sk
      hm hs hg⟩
  obtain ⟨l, hl, hx⟩ :=
    phase1_assigns dets (mmsiToTrack tracks) [("NEW", [])] det sk hmem hm
      hs hg
  unfold batchCorrelate
  rw [if_neg (List.ne_nil_of_mem hmem)]
  dsimp only
  by_cases hrem : (phase1 dets (mmsiToTrack tracks) [("NEW", [])]).2 = []
  · rw [if_pos hrem]
    exact ⟨l, hl, hx⟩
  · rw [if_neg hrem]
    by_cases htr : tracks = []
    · rw [if_pos htr]
      exact foldl_rappend_new_preserves _ _ tid l _ hl hx
    · rw [if_neg htr]
      exact phase2Build_preserves gates _ tracks t _ _ tid l _ hl hx

/-- Witness for C1: one AIS detection with mmsi `"123456789"` against a
one-track map holding that mmsi; the trivial solver returns no pairs. -/
theorem batch_correlate_identity_pinning_witness :
    ((aisDet, SensorKind.ais) ∈ [(aisDet, SensorKind.ais)]) ∧
    aisDet.mmsi = some "123456789" ∧
    dget (mmsiToTrack [("TRK-0001",
      { baseTrack with mmsi := some "123456789" })]) "123456789" =
      some "TRK-0001" ∧
    (∃ l, dget (batchCorrelate defaultGates (fun _ _ _ => [])
        [(aisDet, SensorKind.ais)]
        [("TRK-0001", { baseTrack with mmsi := some "123456789" })] 0)
        "TRK-0001" = some l ∧
      (aisDet, SensorKind.ais, (1 : ℝ)) ∈ l) := by
  have hmem : (aisDet, SensorKind.ais) ∈ [(aisDet, SensorKind.ais)] :=
    List.mem_singleton.mpr rfl
  have hm : aisDet.mmsi = some "123456789" := rfl
  have hg : dget (mmsiToTrack [("TRK-0001",
      { baseTrack with mmsi := some "123456789" })]) "123456789" =
      some "TRK-0001" := rfl
  exact ⟨hmem, hm, hg,
    (batch_correlate_identity_pinning defaultGates (fun _ _ _ => [])
      [(aisDet, SensorKind.ais)]
      [("TRK-0001", { baseTrack with mmsi := some "123456789" })] 0
      aisDet SensorKind.ais "123456789" "TRK-0001" hmem hm
      (by decide) hg).2.1⟩

/-! ## Result-key lemmas: `batch_correlate` only names `"NEW"` and keys of
the track dict it was given -/

theorem phase1Step_keys (m : List (String × String))
    (acc : CorrelationResults × List (Det × SensorKind))
    (ds : Det × SensorKind) (Q : String → Prop)
    (hm : ∀ s tid, dget m s = some tid → Q tid)
    (hacc : ∀ k ∈ acc.1.map Prod.fst, k = "NEW" ∨ Q k) :
    ∀ k ∈ (phase1Step m acc ds).1.map Prod.fst, k = "NEW" ∨ Q k := by
  intro k hk
  unfold phase1Step at hk
  split at hk
  · split at hk
    · split at hk
      · rename_i heq
        rcases mem_keys_rappend k hk with h' | h'
        · exact hacc k h'
        · exact Or.inr (h' ▸ hm _ _ heq)
      · exact hacc k hk
    · exact hacc k hk
  · exact hacc k hk

theorem phase1_fold_keys (m : List (String × String)) (Q : String → Prop)
    (hm : ∀ s tid, dget m s = some tid → Q tid)
    (l : List (Det × SensorKind)) :
    ∀ (acc : CorrelationResults × List (Det × SensorKind)),
      (∀ k ∈ acc.1.map Prod.fst, k = "NEW" ∨ Q k) →
      ∀ k ∈ (l.foldl (phase1Step m) acc).1.map Prod.fst,
        k = "NEW" ∨ Q k := by
  induction l with
  | nil => exact fun acc hacc => hacc
  | cons ds rest ih =>
    intro acc hacc
    rw [List.foldl_cons]
    exact ih _ (phase1Step_keys m acc ds Q hm hacc)

theorem foldl_new_keys (l : List (Det × SensorKind)) :
    ∀ (rs : CorrelationResults) (Q : String → Prop),
      (∀ k ∈ rs.map Prod.fst, k = "NEW" ∨ Q k) →
      ∀ k ∈ (l.foldl
        (fun rs ds => rappend rs "NEW" (ds.1, ds.2, 0)) rs).map Prod.fst,
        k = "NEW" ∨ Q k := by
  induction l with
  | nil => exact fun rs Q h => h
  | cons ds rest ih =>
    intro rs Q h
    rw [List.foldl_cons]
    refine ih _ Q fun k hk => ?_
    rcases mem_keys_rappend k hk with h' | h'
    · exact h k h'
    · exact Or.inl h'

theorem phase2Build_keys (gates : CorrelationGates)
    (remaining : List (Det × SensorKind))
    (trackList : List (String × Track)) (t : ℚ) (pairs : List (ℕ × ℕ)) :
    ∀ (rs : CorrelationResults),
      (∀ k ∈ rs.map Prod.fst,
        k = "NEW" ∨ k ∈ trackList.map Prod.fst) →
      ∀ k ∈ (phase2Build gates remaining trackList t pairs rs).map Prod.fst,
        k = "NEW" ∨ k ∈ trackList.map Prod.fst := by
  unfold phase2Build
  induction pairs with
  | nil => exact fun rs h => h
  | cons ij rest ih =>
    intro rs h
    rw [List.foldl_cons]
    rcases hg : remaining.get? ij.1 with _ | ds
    · exact ih _ h
    · by_cases hj : ij.2 < trackList.length
      · refine ih _ fun k hk => ?_
        dsimp only at hk
        rw [dif_pos hj] at hk
        rcases mem_keys_rappend k hk with h' | h'
        · exact h k h'
        · exact Or.inr (h' ▸
            List.mem_map_of_mem _ (trackList.get_mem _ _))
      · refine ih _ fun k hk => ?_
        dsimp only at hk
        rw [dif_neg hj] at hk
        rcases mem_keys_rappend k hk with h' | h'
        · exact h k h'
        · exact Or.inl h'

/-- Every key of a `batch_correlate` result is either `"NEW"` or a key of
the track dict it was given. -/
theorem batchCorrelate_keys (gates : CorrelationGates) (solver : Solver)
    (dets : List (Det × SensorKind)) (tracks : List (String × Track))
    (t : ℚ) :
    ∀ k ∈ (batchCorrelate gates solver dets tracks t).map Prod.fst,
      k = "NEW" ∨ k ∈ tracks.map Prod.fst := by
  have hm : ∀ s tid, dget (mmsiToTrack tracks) s = some tid →
      tid ∈ tracks.map Prod.fst := by
    intro s tid h
    obtain ⟨tr, htr, _⟩ := mmsiToTrack_sound h
    exact List.mem_map_of_mem _ htr
  have hinit : ∀ k ∈ ([("NEW", ([] : List Assignment))]).map Prod.fst,
      k = "NEW" ∨ k ∈ tracks.map Prod.fst := by
    intro k hk
    simp only [List.map_cons, List.map_nil, List.mem_singleton] at hk
    exact Or.inl hk
  have hph1 : ∀ k ∈ (phase1 dets (mmsiToTrack tracks)
      [("NEW", [])]).1.map Prod.fst, k = "NEW" ∨
      k ∈ tracks.map Prod.fst := by
    unfold phase1
    exact phase1_fold_keys (mmsiToTrack tracks) _ hm dets _ hinit
  unfold batchCorrelate
  by_cases hd : dets = []
  · rw [if_pos hd]
    intro k hk
    simp at hk
  · rw [if_neg hd]
    dsimp only
    by_cases hrem : (phase1 dets (mmsiToTrack tracks) [("NEW", [])]).2 = []
    · rw [if_pos hrem]
      exact hph1
    · rw [if_neg hrem]
      by_cases htr : tracks = []
      · rw [if_pos htr]
        exact foldl_new_keys _ _ _ hph1
      · rw [if_neg htr]
        exact phase2Build_keys gates _ tracks t _ _ hph1

/-! ## Dropped tracks are never mutated -/

/-- `check_dark_ships` skips dropped tracks (track_manager.py lines
249-250). -/
theorem checkDarkTrack_dropped (dark : DarkShipDetectionConfig) (now : ℚ)
    (tr : Track) (h : tr.status = .dropped) :
    checkDarkTrack dark now tr = tr := by
  unfold checkDarkTrack
  rw [if_pos h]

/-- `age_tracks` skips dropped tracks (track_manager.py lines 325-326). -/
theorem ageTrack_dropped (g : CorrelationGates) (now : ℚ) (tr : Track)
    (h : tr.status = .dropped) : ageTrack g now tr = tr := by
  unfold ageTrack
  rw [if_pos h]

/-- A dropped track's unique binding never appears among the active
tracks. -/
theorem dropped_not_in_active {s : TMState} {tid : String} {tr : Track}
    (hnd : (s.map Prod.fst).Nodup) (hget : dget s tid = some tr)
    (hdrop : tr.status = .dropped) :
    tid ∉ (getActiveTracks s).map Prod.fst := by
  intro hmem
  obtain ⟨p, hp, hfst⟩ := List.mem_map.mp hmem
  obtain ⟨k, v⟩ := p
  simp only at hfst
  have hps : (tid, v) ∈ s := by
    rw [← hfst]
    exact List.mem_of_mem_filter hp
  have hstat : ¬v.status = .dropped := by
    have := List.of_mem_filter hp
    simpa using this
  have heq : tr = v := nodup_keys_eq hnd (dget_mem hget) hps
  exact hstat (heq ▸ hdrop)

theorem foldl_createStep_preserves (idGen : ℕ → String) (now : ℚ)
    {tid : String} (hfresh : ∀ n, idGen n ≠ tid) (l : List Assignment) :
    ∀ (acc : TMState × ℕ) (tr : Track), dget acc.1 tid = some tr →
      dget (l.foldl (createStep idGen now) acc).1 tid = some tr := by
  induction l with
  | nil => exact fun acc tr h => h
  | cons a rest ih =>
    intro acc tr h
    rw [List.foldl_cons]
    refine ih _ tr ?_
    unfold createStep
    dsimp only
    rw [dget_dset_ne (hfresh acc.2)]
    exact h

theorem foldl_updateStep_preserves (gates : CorrelationGates) {k : String}
    (now : ℚ) {tid : String} (hk : k ≠ tid) (l : List Assignment) :
    ∀ (st : TMState) (tr : Track), dget st tid = some tr →
      dget (l.foldl (updateStep gates k now) st) tid = some tr := by
  induction l with
  | nil => exact fun st tr h => h
  | cons a rest ih =>
    intro st tr h
    rw [List.foldl_cons]
    refine ih _ tr ?_
    unfold updateStep
    dsimp only
    rw [dget_dmodify_ne hk]
    exact h

theorem processAssignments_preserves (gates : CorrelationGates)
    (results : CorrelationResults) (idGen : ℕ → String) (now : ℚ)
    (s : TMState) {tid : String} {tr : Track} (hget : dget s tid = some tr)
    (hkeys : ∀ k ∈ results.map Prod.fst, k ≠ "NEW" → k ≠ tid)
    (hfresh : ∀ n, idGen n ≠ tid) :
    dget (processAssignments gates results idGen now s) tid = some tr := by
  unfold processAssignments
  suffices h : ∀ (l : CorrelationResults) (acc : TMState × ℕ),
      dget acc.1 tid = some tr →
      (∀ k ∈ l.map Prod.fst, k ≠ "NEW" → k ≠ tid) →
      dget ((l.foldl
        (fun (acc : TMState × ℕ) kv =>
          if kv.1 = "NEW" then kv.2.foldl (createStep idGen now) acc
          else (kv.2.foldl (updateStep gates kv.1 now) acc.1, acc.2))
        acc)).1 tid = some tr from
    h results (s, 0) hget hkeys
  intro l
  induction l with
  | nil => exact fun acc h _ => h
  | cons kv rest ih =>
    intro acc h hkeys'
    rw [List.foldl_cons]
    have hktail : ∀ k ∈ rest.map Prod.fst, k ≠ "NEW" → k ≠ tid :=
      fun k hk => hkeys' k (List.mem_cons_of_mem _ hk)
    by_cases hnew : kv.1 = "NEW"
    · rw [if_pos hnew]
      exact ih _ (foldl_createStep_preserves idGen now hfresh kv.2 acc tr h)
        hktail
    · rw [if_neg hnew]
      have hne : kv.1 ≠ tid :=
        hkeys' kv.1 (List.mem_map_of_mem _ (List.mem_cons_self _ _)) hnew
      exact ih _
        (foldl_updateStep_preserves gates now hne kv.2 acc.1 tr h) hktail

theorem foldl_createStep_nodup (idGen : ℕ → String) (now : ℚ)
    (l : List Assignment) :
    ∀ (acc : TMState × ℕ), (acc.1.map Prod.fst).Nodup →
      (((l.foldl (createStep idGen now) acc)).1.map Prod.fst).Nodup := by
  induction l with
  | nil => exact fun acc h => h
  | cons a rest ih =>
    intro acc h
    rw [List.foldl_cons]
    exact ih _ (keys_nodup_dset h)

theorem foldl_updateStep_keys (gates : CorrelationGates) (k : String)
    (now : ℚ) (l : List Assignment) :
    ∀ (st : TMState),
      (l.foldl (updateStep gates k now) st).map Prod.fst =
        st.map Prod.fst := by
  induction l with
  | nil => exact fun st => rfl
  | cons a rest ih =>
    intro st
    rw [List.foldl_cons, ih]
    unfold updateStep
    dsimp only
    exact keys_dmodify _ _ _

theorem processAssignments_nodup (gates : CorrelationGates)
    (results : CorrelationResults) (idGen : ℕ → String) (now : ℚ)
    (s : TMState) (hnd : (s.map Prod.fst).Nodup) :
    ((processAssignments gates results idGen now s).map Prod.fst).Nodup := by
  unfold processAssignments
  suffices h : ∀ (l : CorrelationResults) (acc : TMState × ℕ),
      (acc.1.map Prod.fst).Nodup →
      (((l.foldl
        (fun (acc : TMState × ℕ) kv =>
          if kv.1 = "NEW" then kv.2.foldl (createStep idGen now) acc
          else (kv.2.foldl (updateStep gates kv.1 now) acc.1, acc.2))
        acc)).1.map Prod.fst).Nodup from h results (s, 0) hnd
  intro l
  induction l with
  | nil => exact fun acc h => h
  | cons kv rest ih =>
    intro acc h
    rw [List.foldl_cons]
    by_cases hnew : kv.1 = "NEW"
    · rw [if_pos hnew]
      exact ih _ (foldl_createStep_nodup idGen now kv.2 acc h)
    · rw [if_neg hnew]
      refine ih _ ?_
      show ((kv.2.foldl (updateStep gates kv.1 now) acc.1).map
        Prod.fst).Nodup
      rw [foldl_updateStep_keys]
      exact h

/-- One runner-driven operation neither mutates a dropped track nor
breaks key uniqueness. -/
theorem applyOp_preserves (op : FusionOp) (s : TMState) {tid : String}
    {tr : Track} (hnd : (s.map Prod.fst).Nodup)
    (hget : dget s tid = some tr) (hdrop : tr.status = .dropped)
    (hfresh : FreshFor tid op) :
    dget (applyOp s op) tid = some tr ∧
    ((applyOp s op).map Prod.fst).Nodup := by
  cases op with
  | dark now =>
      constructor
      · show dget (checkDarkShips defaultDarkConfig now s) tid = some tr
        unfold checkDarkShips
        rw [dget_map_snd, hget]
        simp [checkDarkTrack_dropped _ _ _ hdrop]
      · show ((checkDarkShips defaultDarkConfig now s).map Prod.fst).Nodup
        unfold checkDarkShips
        rw [keys_map_snd]
        exact hnd
  | age now =>
      constructor
      · show dget (ageTracks defaultGates now s) tid = some tr
        unfold ageTracks
        rw [dget_map_snd, hget]
        simp [ageTrack_dropped _ _ _ hdrop]
      · show ((ageTracks defaultGates now s).map Prod.fst).Nodup
        unfold ageTracks
        rw [keys_map_snd]
        exact hnd
  | batch solver dets idGen now =>
      have hfresh' : ∀ n, idGen n ≠ tid := hfresh
      have hkeys : ∀ k ∈ (batchCorrelate defaultGates solver dets
          (getActiveTracks s) now).map Prod.fst, k ≠ "NEW" → k ≠ tid := by
        intro k hk hknew hktid
        rcases batchCorrelate_keys defaultGates solver dets
          (getActiveTracks s) now k hk with h | h
        · exact hknew h
        · exact dropped_not_in_active hnd hget hdrop (hktid ▸ h)
      have h1 : dget (processAssignments defaultGates
          (batchCorrelate defaultGates solver dets (getActiveTracks s) now)
          idGen now s) tid = some tr :=
        processAssignments_preserves defaultGates _ idGen now s hget hkeys
          hfresh'
      have h1n := processAssignments_nodup defaultGates
        (batchCorrelate defaultGates solver dets (getActiveTracks s) now)
        idGen now s hnd
      show dget (processBatch defaultGates defaultDarkConfig solver dets
          idGen now s) tid = some tr ∧
        ((processBatch defaultGates defaultDarkConfig solver dets idGen
          now s).map Prod.fst).Nodup
      unfold processBatch
      dsimp only
      constructor
      · unfold ageTracks checkDarkShips
        rw [dget_map_snd, dget_map_snd, h1]
        simp [checkDarkTrack_dropped _ _ _ hdrop,
          ageTrack_dropped _ _ _ hdrop]
      · unfold ageTracks checkDarkShips
        rw [keys_map_snd, keys_map_snd]
        exact h1n

/-- C8: a dropped track is never mutated again.  The fusion runner's
measurement updates only target keys that `batch_correlate` produced over
the *active* (non-dropped) tracks, creations use fresh uuid keys, and both
the dark-ship check and the age step skip dropped tracks — so across any
sequence of runner operations the dropped track's binding, with every one
of its fields, is preserved verbatim. -/
theorem dropped_track_never_mutated (ops : List FusionOp) (s : TMState)
    (tid : String) (tr : Track) (hnd : (s.map Prod.fst).Nodup)
    (hget : dget s tid = some tr) (hdrop : tr.status = .dropped)
    (hfresh : ∀ op ∈ ops, FreshFor tid op) :
    dget (applyOps s ops) tid = some tr := by
  induction ops generalizing s with
  | nil => exact hget
  | cons op rest ih =>
    obtain ⟨h1, h2⟩ := applyOp_preserves op s hnd hget hdrop
      (hfresh op (List.mem_cons_self _ _))
    exact ih _ h2 h1 fun op' hop' =>
      hfresh op' (List.mem_cons_of_mem _ hop')

/-- Witness for C8: a single dropped track survives a batch (with empty
detections and a fresh uuid supply), a dark-ship check, and an age step,
unchanged. -/
theorem dropped_track_never_mutated_witness :
    dget (applyOps [("T1", { baseTrack with status := .dropped })]
      [FusionOp.batch (fun _ _ _ => []) [] (fun _ => "TRK-NEW") 500,
       FusionOp.dark 600, FusionOp.age 700]) "T1" =
      some { baseTrack with status := .dropped } := by
  have hnd : (([("T1", { baseTrack with status :=
      TrackStatus.dropped })]).map Prod.fst).Nodup := by simp
  have hget : dget [("T1", { baseTrack with status :=
      TrackStatus.dropped })] "T1" =
      some { baseTrack with status := TrackStatus.dropped } := rfl
  have hfresh : ∀ op ∈ [FusionOp.batch (fun _ _ _ => ([] : List (ℕ × ℕ)))
      [] (fun _ => "TRK-NEW") 500, FusionOp.dark 600, FusionOp.age 700],
      FreshFor "T1" op := by
    intro op hop
    rcases List.mem_cons.mp hop with h | hop
    · subst h
      intro k
      show ("TRK-NEW" : String) ≠ "T1"
      decide
    · rcases List.mem_cons.mp hop with h | hop
      · subst h
        exact trivial
      · rcases List.mem_cons.mp hop with h | hop
        · subst h
          exact trivial
        · simp at hop
  exact dropped_track_never_mutated _ _ "T1" _ hnd hget rfl hfresh

end Maritime
